import Mathlib

/-!
Verification of the oh-my-linearmcp gateway core against its specification.

The development shallowly embeds the Python modules `router.py`,
`official_session.py`, `reader.py` and `store_detector.py` of the
`linear_mcp_fast` package.  Python dictionaries become association lists
that preserve insertion order (Python dicts do), floating-point wall-clock
times become rationals, exceptions become explicit sum types, and the two
opaque rich-text helpers (`_extract_comment_text`, `_extract_yjs_text`)
and `json.loads` are passed in as function parameters because no verified
property depends on their output.
-/

namespace LinearMcp

/-- JSON-like values, the payloads moved around by the gateway. -/
inductive JValue where
  | null : JValue
  | bool (b : Bool) : JValue
  | num (n : Int) : JValue
  | str (s : String) : JValue
  | arr (xs : List JValue) : JValue
  | obj (fs : List (String × JValue)) : JValue

/-- Keys of a JSON object (Python `record.keys()`). -/
def JValue.objKeys : JValue → List String
  | .obj fs => fs.map Prod.fst
  | _ => []

/-- Python `k in record` for an object payload. -/
def jHasKey (fs : List (String × JValue)) (k : String) : Bool :=
  fs.any (fun p => p.1 == k)

/-- Python `record.get(k)` for an object payload (first binding wins). -/
def jGet (fs : List (String × JValue)) (k : String) : Option JValue :=
  (fs.find? (fun p => p.1 == k)).map Prod.snd

/-- Insertion-ordered string-keyed map: the embedding of a Python `dict`.
Assigning to an existing key keeps its position; a new key is appended. -/
abbrev SMap (α : Type) := List (String × α)

def SMap.get? {α : Type} (m : SMap α) (k : String) : Option α :=
  (m.find? (fun p => p.1 == k)).map Prod.snd

def SMap.hasKey {α : Type} (m : SMap α) (k : String) : Bool :=
  m.any (fun p => p.1 == k)

def SMap.set {α : Type} (m : SMap α) (k : String) (v : α) : SMap α :=
  if m.any (fun p => p.1 == k) then
    m.map (fun p => if p.1 == k then (k, v) else p)
  else
    m ++ [(k, v)]

/-- Update the value stored at `k` in place (Python `m[k]["f"] = v`). -/
def SMap.adjust {α : Type} (m : SMap α) (k : String) (f : α → α) : SMap α :=
  m.map (fun p => if p.1 == k then (p.1, f p.2) else p)

def SMap.values {α : Type} (m : SMap α) : List α :=
  m.map Prod.snd

def SMap.keysList {α : Type} (m : SMap α) : List String :=
  m.map Prod.fst

def SMap.filterVals {α : Type} (m : SMap α) (p : String → α → Bool) : SMap α :=
  m.filter (fun q => p q.1 q.2)

/-- Python `str.startswith` on the underlying character lists. -/
def strStarts (hay needle : String) : Bool :=
  needle.data.isPrefixOf hay.data

/-- Contiguous-sublist test used to embed Python `needle in hay`. -/
def listInfixOf (needle : List Char) : List Char → Bool
  | [] => needle.isEmpty
  | c :: t => needle.isPrefixOf (c :: t) || listInfixOf needle t

/-- Python `needle in hay` for strings. -/
def strContains (hay needle : String) : Bool :=
  listInfixOf needle.data hay.data

/-- Python `str(x) if x is not None else ""`, the reader helper `_to_str`
restricted to optional strings. -/
def pyToStr : Option String → String
  | none => ""
  | some s => s

/-- Python `str.lower` (character-wise, as `Char.toLower`). -/
def pyLower (s : String) : String :=
  String.mk (s.data.map Char.toLower)

/-- Python `str.strip` with no argument: drop whitespace on both ends. -/
def pyTrim (s : String) : String :=
  String.mk (((s.data.dropWhile Char.isWhitespace).reverse.dropWhile
    Char.isWhitespace).reverse)

/-- Python rendering of an optional string inside an f-string
(`None` renders as the word None). -/
def pyShowOptStr : Option String → String
  | none => "None"
  | some s => s

/-- Python rendering of an optional integer inside an f-string. -/
def pyShowOptInt : Option Int → String
  | none => "None"
  | some n => toString n

/-- Python truthiness of an optional string (None and "" are falsy). -/
def optStrTruthy : Option String → Bool
  | none => false
  | some s => !s.isEmpty

/-- Python `x in allowed` where `x` is an optional string and `allowed`
holds strings (so `None in allowed` is false). -/
def optMem (x : Option String) (allowed : List String) : Bool :=
  match x with
  | none => false
  | some s => allowed.contains s

/-- Python `str.isupper` for the ASCII range: at least one cased character
and no lowercase one. -/
def pyIsUpper (s : String) : Bool :=
  s.data.any (fun c => c.isUpper || c.isLower) && s.data.all (fun c => !c.isLower)

/-- Python `str.isalpha` for the ASCII range. -/
def pyIsAlpha (s : String) : Bool :=
  !s.isEmpty && s.data.all Char.isAlpha

/-! ## Store detector (`store_detector.py`)

`detect_stores` samples the first record of every object store of one
IndexedDB database and classifies the store by key-shape predicates.
A store is a name (possibly `None` in the underlying reader) together
with the outcome of iterating its records: either an exception or the
list of record values. -/

/-- One object store as seen by `detect_stores`. -/
structure DetStore where
  name : Option String
  read : Except Unit (List JValue)

/-- `DetectedStores` from `store_detector.py`; `detect_stores` initialises
the three accumulating fields to empty lists. -/
structure DetectedStores where
  issues : Option String
  teams : Option String
  users : List String
  workflow_states : List String
  comments : Option String
  projects : Option String
  issue_content : Option String
  labels : List String
  initiatives : Option String
  project_statuses : Option String
  cycles : Option String
  documents : Option String
  document_content : Option String
  milestones : Option String
  project_updates : Option String
deriving Repr, DecidableEq

def DetectedStores.init : DetectedStores :=
  ⟨none, none, [], [], none, none, none, [], none, none, none, none, none, none, none⟩

def requiredSubset (required : List String) (fs : List (String × JValue)) : Bool :=
  required.all (fun k => jHasKey fs k)

def isIssueRecord (fs : List (String × JValue)) : Bool :=
  requiredSubset (["number", "teamId", "stateId", "title"]) fs

def isUserRecord (fs : List (String × JValue)) : Bool :=
  requiredSubset (["name", "displayName", "email"]) fs

def isTeamRecord (fs : List (String × JValue)) : Bool :=
  if !requiredSubset (["key", "name"]) fs then false
  else
    match jGet fs ("key") with
    | some (.str key) => pyIsUpper key && pyIsAlpha key && key.length ≤ 10
    | _ => false

def isWorkflowStateRecord (fs : List (String × JValue)) : Bool :=
  if !requiredSubset (["name", "type", "color", "teamId"]) fs then false
  else
    match jGet fs ("type") with
    | some (.str t) => (["started", "unstarted", "completed", "canceled", "backlog"]).contains t
    | _ => false

def isCommentRecord (fs : List (String × JValue)) : Bool :=
  requiredSubset (["issueId", "userId", "bodyData", "createdAt"]) fs

def isProjectRecord (fs : List (String × JValue)) : Bool :=
  requiredSubset (["name", "teamIds", "slugId", "statusId", "memberIds"]) fs

def isIssueContentRecord (fs : List (String × JValue)) : Bool :=
  requiredSubset (["issueId", "contentState"]) fs

def isLabelRecord (fs : List (String × JValue)) : Bool :=
  requiredSubset (["name", "color", "isGroup"]) fs

def isInitiativeRecord (fs : List (String × JValue)) : Bool :=
  requiredSubset (["name", "ownerId", "slugId", "frequencyResolution"]) fs

def isProjectStatusRecord (fs : List (String × JValue)) : Bool :=
  if !requiredSubset (["name", "color", "position", "type", "indefinite"]) fs then false
  else !jHasKey fs ("teamId")

def isCycleRecord (fs : List (String × JValue)) : Bool :=
  requiredSubset (["number", "teamId", "startsAt", "endsAt"]) fs

def isDocumentRecord (fs : List (String × JValue)) : Bool :=
  requiredSubset (["title", "slugId", "projectId", "sortOrder"]) fs
    && (!jHasKey fs ("number") && !jHasKey fs ("stateId"))

def isDocumentContentRecord (fs : List (String × JValue)) : Bool :=
  requiredSubset (["documentContentId", "contentData"]) fs

def isMilestoneRecord (fs : List (String × JValue)) : Bool :=
  requiredSubset (["name", "projectId", "sortOrder"]) fs
    && (jHasKey fs ("currentProgress") || jHasKey fs ("targetDate"))

def isProjectUpdateRecord (fs : List (String × JValue)) : Bool :=
  jHasKey fs ("body") && (jHasKey fs ("projectId") || jHasKey fs ("health"))
    && !jHasKey fs ("issueId")

/-- Stores whose name starts with an underscore or contains `_partial`
are skipped, as is the `None` name the reader can yield. -/
def detSkipName : Option String → Bool
  | none => true
  | some n => strStarts n ("_") || strContains n ("_partial")

/-- The elif chain in the body of `detect_stores`, applied to the first
record (a dict `fs`) of store `name`. -/
def detClassify (r : DetectedStores) (name : String) (fs : List (String × JValue)) :
    DetectedStores :=
  if isIssueRecord fs && r.issues.isNone then { r with issues := some name }
  else if isTeamRecord fs && r.teams.isNone then { r with teams := some name }
  else if isUserRecord fs && !r.users.contains name then
    { r with users := r.users ++ [name] }
  else if isWorkflowStateRecord fs && !r.workflow_states.contains name then
    { r with workflow_states := r.workflow_states ++ [name] }
  else if isCommentRecord fs && r.comments.isNone then { r with comments := some name }
  else if isProjectRecord fs && r.projects.isNone then { r with projects := some name }
  else if isIssueContentRecord fs && r.issue_content.isNone then
    { r with issue_content := some name }
  else if isLabelRecord fs && !r.labels.contains name then
    { r with labels := r.labels ++ [name] }
  else if isInitiativeRecord fs && r.initiatives.isNone then
    { r with initiatives := some name }
  else if isProjectStatusRecord fs && r.project_statuses.isNone then
    { r with project_statuses := some name }
  else if isCycleRecord fs && r.cycles.isNone then { r with cycles := some name }
  else if isDocumentRecord fs && r.documents.isNone then { r with documents := some name }
  else if isDocumentContentRecord fs && r.document_content.isNone then
    { r with document_content := some name }
  else if isMilestoneRecord fs && r.milestones.isNone then
    { r with milestones := some name }
  else if isProjectUpdateRecord fs && r.project_updates.isNone then
    { r with project_updates := some name }
  else r

/-- One iteration of the `for store_name in db.object_store_names` loop:
skipped names and read errors leave the result unchanged, otherwise only
the first record is looked at, and only when it is a dict. -/
def detectStep (r : DetectedStores) (s : DetStore) : DetectedStores :=
  if detSkipName s.name then r
  else
    match s.name, s.read with
    | some name, .ok records =>
      match records.head? with
      | some (.obj fs) => detClassify r name fs
      | _ => r
    | _, _ => r

/-- `detect_stores` over the object stores of one database. -/
def detectStores (stores : List DetStore) : DetectedStores :=
  stores.foldl detectStep DetectedStores.init

/-! ## Upstream session manager (`official_session.py`)

`OfficialMcpSessionManager.call_tool` runs at most two attempts; an
attempt either yields a result object from the MCP library or raises.
Raised Python exceptions are embedded as `PyExc`; the only reachable
`OfficialToolError` inside an attempt is the semantic one produced by
`_normalize_result`, but the embedding keeps the full exception shape so
the `except OfficialToolError` arm is represented faithfully. -/

/-- A text content block of an MCP result object. -/
structure ContentBlock where
  type : String
  text : String

/-- The result object returned by `session.call_tool`; `model_dump` and
the raw object are collapsed into `modelDump` (both branches only matter
when there is no structured content and no text). -/
structure McpResult where
  isError : Bool
  structuredContent : Option JValue
  content : List ContentBlock
  modelDump : Option JValue

/-- A normalized call result: a JSON value, or the raw result object
(the final `return result` fallback). -/
inductive NormValue where
  | json (v : JValue)
  | raw

/-- A Python exception escaping the attempt body: an `OfficialToolError`
with its code, or any other exception. -/
inductive PyExc where
  | toolError (code : String) (msg : String)
  | otherExc (msg : String)

/-- What one attempt body (connect, submit, result) does. -/
inductive AttemptOutcome where
  | result (r : McpResult)
  | raised (e : PyExc)

/-- `OfficialMcpSessionManager._extract_text`: join the non-empty text
blocks with newlines, then strip. -/
def extractTextBlocks : List ContentBlock → List String
  | [] => []
  | b :: t =>
    if b.type == "text" && !b.text.isEmpty then b.text :: extractTextBlocks t
    else extractTextBlocks t

def extractText (r : McpResult) : String :=
  pyTrim (String.intercalate ("\n") (extractTextBlocks r.content))

/-- `OfficialMcpSessionManager._normalize_result`.  `parseJson` embeds
`json.loads`, returning `none` when parsing raises. -/
def normalizeResult (parseJson : String → Option JValue) (r : McpResult) :
    Except PyExc NormValue :=
  if r.isError then
    let text := extractText r
    .error (.toolError ("official_tool_error")
      (if text.isEmpty then "official MCP returned an error" else text))
  else
    match r.structuredContent with
    | some v => .ok (.json v)
    | none =>
      let text := extractText r
      if !text.isEmpty then
        match parseJson text with
        | some v => .ok (.json v)
        | none => .ok (.json (.obj [("text", .str text)]))
      else
        match r.modelDump with
        | some v => .ok (.json v)
        | none => .ok .raw

/-- Mutable counters of the session manager that `call_tool` touches. -/
structure SessionState where
  failureCount : Nat
  lastError : Option String
  lastFailureAt : Option Rat
  connected : Bool

/-- Observable actions of `call_tool`, in order. -/
inductive SmEvent where
  | attemptStart
  | recordFailure
  | disconnect
  | recordSuccess
deriving Repr, DecidableEq

def excText : PyExc → String
  | .toolError _ m => "OfficialToolError: " ++ m
  | .otherExc m => m

/-- `_record_failure`. -/
def recordFailure (now : Rat) (e : PyExc) (s : SessionState) : SessionState :=
  { s with failureCount := s.failureCount + 1, lastFailureAt := some now,
           lastError := some (excText e) }

/-- `_record_success`. -/
def recordSuccess (s : SessionState) : SessionState :=
  { s with failureCount := 0, lastError := none }

/-- `_disconnect_async` as far as `call_tool` observes it. -/
def disconnectSession (s : SessionState) : SessionState :=
  { s with connected := false }

/-- The try body of one `call_tool` attempt: `_ensure_connected`, the
submit, `_normalize_result`, `_record_success`.  A `result` outcome means
the transport delivered a result object, so the session is connected. -/
def attemptBody (parseJson : String → Option JValue) (a : AttemptOutcome)
    (s : SessionState) : Except PyExc NormValue × SessionState × List SmEvent :=
  match a with
  | .raised e => (.error e, s, [.attemptStart])
  | .result r =>
    let s1 := { s with connected := true }
    match normalizeResult parseJson r with
    | .error e => (.error e, s1, [.attemptStart])
    | .ok v => (.ok v, recordSuccess s1, [.attemptStart, .recordSuccess])

/-- `record failure, tear down the session`: the common tail of both
`except` arms of `call_tool`. -/
def failAndDisconnect (now : Rat) (e : PyExc) (s : SessionState) :
    SessionState × List SmEvent :=
  (disconnectSession (recordFailure now e s), [.recordFailure, .disconnect])

/-- The second (last) iteration of the `for attempt in range(2)` loop:
any non-semantic exception is raised, wrapping non-`OfficialToolError`
exceptions in `OfficialToolError("official_unavailable", ...)`. -/
def callToolLastAttempt (parseJson : String → Option JValue) (now : Rat)
    (name : String) (a2 : AttemptOutcome) (s : SessionState)
    (ev : List SmEvent) :
    Except (String × String) NormValue × SessionState × List SmEvent × Nat :=
  let (res2, s2, ev2) := attemptBody parseJson a2 s
  match res2 with
  | .ok v => (.ok v, s2, ev ++ ev2, 2)
  | .error (.toolError c m) =>
    if c == "official_tool_error" then (.error (c, m), s2, ev ++ ev2, 2)
    else
      let (s3, evh) := failAndDisconnect now (.toolError c m) s2
      -- `if attempt == 1: raise` re-raises the tool error as-is
      (.error (c, m), s3, ev ++ ev2 ++ evh, 2)
  | .error (.otherExc m) =>
    let (s3, evh) := failAndDisconnect now (.otherExc m) s2
    (.error ("official_unavailable",
        "official MCP call failed for tool \x27" ++ name ++ "\x27: " ++ m),
      s3, ev ++ ev2 ++ evh, 2)

/-- `OfficialMcpSessionManager.call_tool` for tool `name`, with the two
attempt outcomes supplied by the environment.  Returns the final result
(value or escaping `OfficialToolError` code and message), the state, the
event trace and the number of attempts made. -/
def callTool (parseJson : String → Option JValue) (now : Rat) (name : String)
    (a1 a2 : AttemptOutcome) (s : SessionState) :
    Except (String × String) NormValue × SessionState × List SmEvent × Nat :=
  let (res1, s1, ev1) := attemptBody parseJson a1 s
  match res1 with
  | .ok v => (.ok v, s1, ev1, 1)
  | .error (.toolError c m) =>
    if c == "official_tool_error" then
      -- semantic: raise unchanged, no retry, no failure record, no teardown
      (.error (c, m), s1, ev1, 1)
    else
      let (s2, evh) := failAndDisconnect now (.toolError c m) s1
      callToolLastAttempt parseJson now name a2 s2 (ev1 ++ evh)
  | .error (.otherExc m) =>
    let (s2, evh) := failAndDisconnect now (.otherExc m) s1
    callToolLastAttempt parseJson now name a2 s2 (ev1 ++ evh)

/-! ## Router (`router.py`)

`ToolRouter` keeps one scalar, `_remote_reads_until`.  The session
manager behind `call_official` and the local dispatch table of
`local_handlers` are abstracted to the outcome they produce for the call
at hand: the upstream call either returns a value or raises an
`OfficialToolError` with a code, and the local handler is either absent,
or produces a value, raises `LocalFallbackRequested`, or raises an
unexpected exception.  `call_read` may invoke `call_official` at most
twice (the remote-first attempt and the pure-local fallback), so the
environment carries one outcome for each. -/

def WRITE_TOOL_PREFIXES : List String :=
  ["create_", "update_", "delete_", "archive_", "unarchive_", "set_",
   "add_", "remove_", "move_"]

/-- `ToolRouter._is_probable_write_tool`: `registered` states whether the
tool name is a key of `local_handlers.LOCAL_READ_HANDLERS`. -/
def isProbableWriteTool (registered : Bool) (toolName : String) : Bool :=
  if registered then false
  else WRITE_TOOL_PREFIXES.any (fun p => strStarts toolName p)

/-- Router state: `_remote_reads_until` (epoch seconds, initially 0.0). -/
structure RouterState where
  remoteReadsUntil : Rat

/-- `ToolRouter._mark_recent_write`. -/
def markRecentWrite (now window : Rat) (st : RouterState) : RouterState :=
  { st with remoteReadsUntil := now + window }

/-- `ToolRouter._read_remote_first`. -/
def readRemoteFirst (now : Rat) (st : RouterState) : Bool :=
  now < st.remoteReadsUntil

/-- Outcome of `self._official.call_tool(...)` for the call at hand. -/
inductive UpstreamOutcome where
  | ok (v : JValue)
  | err (code : String) (msg : String)

/-- What the registered local handler does when it is actually invoked. -/
inductive HandlerOutcome where
  | ok (v : JValue)
  | fallback (code : String) (msg : String)
  | exn (msg : String)

/-- Environment of a single `call_read`: the dispatch-table lookup, the
degraded flag of the reader, the handler behaviour, and the upstream
outcome of each potential `call_official` invocation. -/
structure ReadEnv where
  registered : Bool
  degraded : Bool
  handler : HandlerOutcome
  upstream1 : UpstreamOutcome
  upstream2 : UpstreamOutcome

/-- Exceptions of `_call_local`. -/
inductive LocalExc where
  | fallback (code : String) (msg : String)
  | exn (msg : String)

/-- `ToolRouter._call_local`. -/
def callLocal (env : ReadEnv) (toolName : String) (allowDegraded : Bool) :
    Except LocalExc JValue :=
  if !env.registered then
    .error (.fallback ("unsupported_tool")
      ("tool \x27" ++ toolName ++ "\x27 not implemented in local cache"))
  else if env.degraded && !allowDegraded then
    .error (.fallback ("degraded_local") ("local cache is degraded"))
  else
    match env.handler with
    | .ok v => .ok v
    | .fallback c m => .error (.fallback c m)
    | .exn m => .error (.exn m)

/-- `ToolRouter.call_official`: forwards to the session manager, then
marks the coherence window when the tool name is a probable write. -/
def callOfficial (now window : Rat) (toolName : String) (registered : Bool)
    (outcome : UpstreamOutcome) (st : RouterState) :
    Except (String × String) JValue × RouterState :=
  match outcome with
  | .ok v =>
    (.ok v, if isProbableWriteTool registered toolName then markRecentWrite now window st else st)
  | .err c m => (.error (c, m), st)

/-- Steps `call_read` takes, in order: an upstream attempt or a local
attempt (with its `allow_degraded` flag). -/
inductive ReadAttempt where
  | upstream
  | localTry (allowDegraded : Bool)
deriving Repr, DecidableEq

/-- How `call_read` terminates. -/
inductive CallResult where
  | value (v : JValue)
  | toolError (code : String) (msg : String)
  | fallbackEsc (code : String) (msg : String)
  | exnEsc (msg : String)

/-- The allow-degraded local retry: `self._call_local(tool_name, args,
allow_degraded=True)` inside an except arm; its own exceptions escape
`call_read`. -/
def degradedRetry (env : ReadEnv) (toolName : String) : CallResult :=
  match callLocal env toolName true with
  | .ok v => .value v
  | .error (.fallback c m) => .fallbackEsc c m
  | .error (.exn m) => .exnEsc m

/-- `ToolRouter.call_read` (`router.py` lines 88-128).  Note: the source
returns degraded-fallback payloads untouched — there is no stale
`_metadata` injection in this version of the router. -/
def callRead (now window : Rat) (toolName : String) (env : ReadEnv)
    (st : RouterState) : CallResult × List ReadAttempt × RouterState :=
  if readRemoteFirst now st then
    let (r1, st1) := callOfficial now window toolName env.registered env.upstream1 st
    match r1 with
    | .ok v => (.value v, [.upstream], st1)
    | .error (c, m) =>
      if c == "official_tool_error" then (.toolError c m, [.upstream], st1)
      else
        -- remember the remote error, fall through to local
        match callLocal env toolName false with
        | .ok v => (.value v, [.upstream, .localTry false], st1)
        | .error (.fallback lc _) =>
          if lc == "degraded_local" then
            (degradedRetry env toolName, [.upstream, .localTry false, .localTry true], st1)
          else (.toolError c m, [.upstream, .localTry false], st1)
        | .error (.exn _) =>
          let (r2, st2) := callOfficial now window toolName env.registered env.upstream2 st1
          match r2 with
          | .ok v => (.value v, [.upstream, .localTry false, .upstream], st2)
          | .error (c2, m2) => (.toolError c2 m2, [.upstream, .localTry false, .upstream], st2)
  else
    match callLocal env toolName false with
    | .ok v => (.value v, [.localTry false], st)
    | .error (.fallback lc _) =>
      let (r2, st2) := callOfficial now window toolName env.registered env.upstream2 st
      match r2 with
      | .ok v => (.value v, [.localTry false, .upstream], st2)
      | .error (c2, m2) =>
        if c2 == "official_tool_error" then
          (.toolError c2 m2, [.localTry false, .upstream], st2)
        else if lc == "degraded_local" then
          (degradedRetry env toolName, [.localTry false, .upstream, .localTry true], st2)
        else (.toolError c2 m2, [.localTry false, .upstream], st2)
    | .error (.exn _) =>
      let (r2, st2) := callOfficial now window toolName env.registered env.upstream2 st
      match r2 with
      | .ok v => (.value v, [.localTry false, .upstream], st2)
      | .error (c2, m2) => (.toolError c2 m2, [.localTry false, .upstream], st2)

/-! ## Local cache reader (`reader.py`)

Raw records are typed with exactly the fields the loader reads
(`val.get(...)`); a field the raw dict may lack or hold `None` in is an
`Option`.  The raw issue record additionally carries the `identifier`
field Linear stores, which the loader never reads — the spec claims the
identifier is always derived.  The two rich-text decoders are passed as
`TextCodecs`: no verified property depends on their output. -/

/-- Python truthiness of an optional JSON value. -/
def jTruthy : Option JValue → Bool
  | none => false
  | some .null => false
  | some (.bool b) => b
  | some (.num n) => !(n == 0)
  | some (.str s) => !s.isEmpty
  | some (.arr xs) => !xs.isEmpty
  | some (.obj fs) => !fs.isEmpty

/-- Python `a >= b` for strings (code-point lexicographic). -/
def charListLt : List Char → List Char → Bool
  | [], [] => false
  | [], _ :: _ => true
  | _ :: _, [] => false
  | a :: as, b :: bs =>
    if a.val < b.val then true
    else if b.val < a.val then false
    else charListLt as bs

def pyStrGe (a b : String) : Bool :=
  !charListLt a.data b.data

/-- `CACHE_TTL_SECONDS = 300`. -/
def CACHE_TTL_SECONDS : Rat := 300

structure TeamRec where
  id : String
  key : Option String
  name : Option String
  organizationId : Option String
deriving Repr, DecidableEq

structure UserRec where
  id : String
  name : Option String
  displayName : Option String
  email : Option String
  organizationId : Option String
  userAccountId : Option String
  active : Option Bool
deriving Repr, DecidableEq

structure StateRec where
  id : String
  name : Option String
  type : Option String
  color : Option String
  teamId : Option String
  position : Option Int
deriving Repr, DecidableEq

structure RawIssue where
  id : String
  identifier : Option String
  title : Option String
  description : Option String
  descriptionData : Option JValue
  number : Option Int
  priority : Option Int
  estimate : Option Int
  teamId : Option String
  stateId : Option String
  assigneeId : Option String
  projectId : Option String
  labelIds : List String
  dueDate : Option String
  createdAt : Option String
  updatedAt : Option String

structure Issue where
  id : String
  identifier : String
  title : Option String
  description : Option String
  number : Option Int
  priority : Option Int
  estimate : Option Int
  teamId : Option String
  stateId : Option String
  assigneeId : Option String
  projectId : Option String
  labelIds : List String
  dueDate : Option String
  createdAt : Option String
  updatedAt : Option String

structure RawComment where
  id : Option String
  issueId : Option String
  userId : Option String
  bodyData : Option JValue
  createdAt : Option String
  updatedAt : Option String

structure CommentRec where
  id : String
  issueId : String
  userId : Option String
  body : String
  createdAt : Option String
  updatedAt : Option String

structure ProjectRec where
  id : String
  name : Option String
  description : Option String
  slugId : Option String
  icon : Option String
  color : Option String
  state : Option String
  statusId : Option String
  priority : Option Int
  teamIds : List String
  memberIds : List String
  leadId : Option String
  startDate : Option String
  targetDate : Option String
  createdAt : Option String
  updatedAt : Option String
deriving Repr, DecidableEq

structure RawIssueContent where
  issueId : Option String
  contentState : Option String

structure LabelRec where
  id : String
  name : Option String
  color : Option String
  isGroup : Option Bool
  parentId : Option String
  teamId : Option String

structure InitiativeRec where
  id : String
  name : Option String
  slugId : Option String
  color : Option String
  status : Option String
  ownerId : Option String
  teamIds : List String
  createdAt : Option String
  updatedAt : Option String

structure CycleRec where
  id : String
  number : Option Int
  teamId : Option String
  startsAt : Option String
  endsAt : Option String
  completedAt : Option String
  currentProgress : Option Int

structure DocumentRec where
  id : String
  title : Option String
  slugId : Option String
  projectId : Option String
  creatorId : Option String
  createdAt : Option String
  updatedAt : Option String

structure RawDocContent where
  id : Option String
  documentContentId : Option String
  contentData : Option JValue

structure DocContentRec where
  id : Option String
  documentContentId : String
  contentData : Option JValue

structure MilestoneRec where
  id : String
  name : Option String
  projectId : Option String
  targetDate : Option String
  sortOrder : Option Int
  currentProgress : Option Int

structure RawProjectStatus where
  id : Option String
  name : Option String
  color : Option String
  type : Option String

structure ProjectStatusRec where
  id : String
  name : Option String
  color : Option String
  type : Option String

structure ProjectUpdateRec where
  id : String
  body : Option String
  health : Option String
  projectId : Option String
  userId : Option String
  createdAt : Option String
  updatedAt : Option String

/-- `CachedData`: one immutable snapshot. -/
structure CachedData where
  teams : SMap TeamRec
  users : SMap UserRec
  states : SMap StateRec
  issues : SMap Issue
  comments : SMap CommentRec
  commentsByIssue : SMap (List String)
  projects : SMap ProjectRec
  issueContent : SMap String
  labels : SMap LabelRec
  initiatives : SMap InitiativeRec
  cycles : SMap CycleRec
  documents : SMap DocumentRec
  documentContent : SMap DocContentRec
  milestones : SMap MilestoneRec
  projectUpdates : SMap ProjectUpdateRec
  projectStatuses : SMap ProjectStatusRec
  issueCountsByTeam : SMap Nat
  issueCountsByProject : SMap Nat
  issueCountsByUser : SMap Nat
  issueStateCountsByTeam : SMap (SMap Nat)
  issueStateCountsByProject : SMap (SMap Nat)
  issueStateCountsByUser : SMap (SMap Nat)
  loadedAt : Rat

/-- A fresh `CachedData(loaded_at=...)`. -/
def CachedData.init (loadedAt : Rat) : CachedData :=
  ⟨[], [], [], [], [], [], [], [], [], [], [], [], [], [], [], [],
   [], [], [], [], [], [], loadedAt⟩

/-- `CachedData.is_expired`. -/
def CachedData.isExpired (now : Rat) (c : CachedData) : Bool :=
  now - c.loadedAt > CACHE_TTL_SECONDS

/-- `LocalHealth`. -/
structure LocalHealth where
  degraded : Bool
  reason : Option String
  failureCount : Nat
  lastError : Option String
  lastErrorAt : Option Rat
  lastSuccessAt : Option Rat

def LocalHealth.init : LocalHealth := ⟨false, none, 0, none, none, none⟩

/-- `LinearLocalReader._set_degraded`. -/
def setDegraded (now : Rat) (reason : String) (h : LocalHealth) : LocalHealth :=
  { h with degraded := true, reason := some reason,
           failureCount := h.failureCount + 1, lastError := some reason,
           lastErrorAt := some now }

/-- `LinearLocalReader._set_healthy`. -/
def setHealthy (now : Rat) (h : LocalHealth) : LocalHealth :=
  { h with degraded := false, reason := none, failureCount := 0,
           lastSuccessAt := some now }

/-- Mutable reader state touched by the cache machinery. -/
structure ReaderState where
  cache : CachedData
  health : LocalHealth
  forceNextRefresh : Bool
  lastToolCallAt : Rat

def ReaderState.init : ReaderState :=
  ⟨CachedData.init 0, LocalHealth.init, false, 0⟩

/-- Reader configuration drawn from the environment. -/
structure ReaderCfg where
  scopeAccountEmails : List String
  scopeUserAccountIds : List String
  loadDocumentContent : Bool
  idleRefreshThreshold : Rat

/-- The two rich-text decoders (`_extract_comment_text`,
`_extract_yjs_text`), passed in opaquely. -/
structure TextCodecs where
  commentText : Option JValue → String
  yjsText : String → String

/-- One Linear database after store detection, as `_load_from_db`
consumes it: for every detected store the list of truthy record values
yielded by `_load_from_store` (typed per entity kind), plus the error
strings `_load_from_store` appended for failing hard stores and for the
soft `issue_content` store. -/
structure LoadDb where
  teams : Option (List TeamRec)
  users : List (List UserRec)
  workflowStates : List (List StateRec)
  issues : Option (List RawIssue)
  comments : Option (List RawComment)
  projects : Option (List ProjectRec)
  issueContent : Option (List RawIssueContent)
  labels : List (List LabelRec)
  initiatives : Option (List InitiativeRec)
  cycles : Option (List CycleRec)
  documents : Option (List DocumentRec)
  documentContent : Option (List RawDocContent)
  milestones : Option (List MilestoneRec)
  projectStatuses : Option (List RawProjectStatus)
  projectUpdates : Option (List ProjectUpdateRec)
  hardReadErrors : List String
  softReadErrors : List String

/-- A database with nothing detected and no records. -/
def LoadDb.empty : LoadDb :=
  ⟨none, [], [], none, none, none, none, [], none, none, none, none, none,
   none, none, [], []⟩

/-- `LinearLocalReader._detected_store_keys`. -/
def detectedStoreKeys (db : LoadDb) : List String :=
  (if db.issues.isSome then ["issues"] else [])
    ++ (if db.teams.isSome then ["teams"] else [])
    ++ (if !db.users.isEmpty then ["users"] else [])
    ++ (if !db.workflowStates.isEmpty then ["workflow_states"] else [])
    ++ (if db.projects.isSome then ["projects"] else [])

/-- The team key used for the derived identifier:
`cache.teams.get(val.get("teamId"), {}).get("key", "???")` rendered
through the f-string (a present-but-`None` key renders as None). -/
def issueTeamKey (teams : SMap TeamRec) (teamId : Option String) : String :=
  match teamId with
  | none => "???"
  | some t =>
    match teams.get? t with
    | none => "???"
    | some tm => pyShowOptStr tm.key

/-- The issue record `_load_from_db` builds: the identifier is derived
from the teams map as loaded so far, never read from the raw record. -/
def mkIssue (codecs : TextCodecs) (teams : SMap TeamRec) (r : RawIssue) : Issue :=
  let identifier := issueTeamKey teams r.teamId ++ "-" ++ pyShowOptInt r.number
  let description :=
    if !optStrTruthy r.description && jTruthy r.descriptionData then
      some (codecs.commentText r.descriptionData)
    else r.description
  { id := r.id, identifier := identifier, title := r.title,
    description := description, number := r.number, priority := r.priority,
    estimate := r.estimate, teamId := r.teamId, stateId := r.stateId,
    assigneeId := r.assigneeId, projectId := r.projectId,
    labelIds := r.labelIds, dueDate := r.dueDate, createdAt := r.createdAt,
    updatedAt := r.updatedAt }

def loadIssues (codecs : TextCodecs) (teams : SMap TeamRec)
    (recs : List RawIssue) (m : SMap Issue) : SMap Issue :=
  recs.foldl (fun acc r => acc.set r.id (mkIssue codecs teams r)) m

def loadTeams (recs : List TeamRec) (m : SMap TeamRec) : SMap TeamRec :=
  recs.foldl (fun acc r => acc.set r.id r) m

/-- Users, workflow states, labels and project statuses keep the record
already present (`if val.get("id") not in cache.X`). -/
def loadFirstWins {α : Type} (getId : α → String) (recs : List α)
    (m : SMap α) : SMap α :=
  recs.foldl (fun acc r => if acc.hasKey (getId r) then acc else acc.set (getId r) r) m

def loadComments (codecs : TextCodecs) (recs : List RawComment)
    (comments : SMap CommentRec) (byIssue : SMap (List String)) :
    SMap CommentRec × SMap (List String) :=
  recs.foldl
    (fun acc r =>
      match r.id, r.issueId with
      | some cid, some iid =>
        if cid.isEmpty || iid.isEmpty then acc
        else
          let c : CommentRec :=
            { id := cid, issueId := iid, userId := r.userId,
              body := codecs.commentText r.bodyData,
              createdAt := r.createdAt, updatedAt := r.updatedAt }
          let byIssue1 :=
            if acc.2.hasKey iid then acc.2.adjust iid (fun l => l ++ [cid])
            else acc.2.set iid [cid]
          (acc.1.set cid c, byIssue1)
      | _, _ => acc)
    (comments, byIssue)

def loadProjects (recs : List ProjectRec) (m : SMap ProjectRec) : SMap ProjectRec :=
  recs.foldl (fun acc r => acc.set r.id { r with state := none }) m

def loadIssueContent (codecs : TextCodecs) (recs : List RawIssueContent)
    (m : SMap String) : SMap String :=
  recs.foldl
    (fun acc r =>
      match r.issueId, r.contentState with
      | some iid, some cs =>
        if iid.isEmpty || cs.isEmpty then acc
        else
          let extracted := codecs.yjsText cs
          if extracted.isEmpty then acc else acc.set iid extracted
      | _, _ => acc)
    m

/-- The post-`issue_content` merge inside `_load_from_db`: fill in
missing issue descriptions from extracted content. -/
def mergeIssueContent (ic : SMap String) (issues : SMap Issue) : SMap Issue :=
  ic.foldl
    (fun m p =>
      match m.get? p.1 with
      | some isr =>
        if !optStrTruthy isr.description then
          m.adjust p.1 (fun i => { i with description := some p.2 })
        else m
      | none => m)
    issues

def loadSimple {α : Type} (getId : α → String) (recs : List α) (m : SMap α) : SMap α :=
  recs.foldl (fun acc r => acc.set (getId r) r) m

/-- Documents: the record with the lexically greatest `updatedAt` wins
(`existing.get("updatedAt", "") >= val.get("updatedAt", "")`, missing
and `None` both compared as the empty string). -/
def loadDocuments (recs : List DocumentRec) (m : SMap DocumentRec) : SMap DocumentRec :=
  recs.foldl
    (fun acc r =>
      match acc.get? r.id with
      | some existing =>
        if pyStrGe (pyToStr existing.updatedAt) (pyToStr r.updatedAt) then acc
        else acc.set r.id r
      | none => acc.set r.id r)
    m

def loadDocumentContent (recs : List RawDocContent) (m : SMap DocContentRec) :
    SMap DocContentRec :=
  recs.foldl
    (fun acc r =>
      match r.documentContentId with
      | some cid =>
        if cid.isEmpty then acc
        else acc.set cid { id := r.id, documentContentId := cid, contentData := r.contentData }
      | none => acc)
    m

def loadProjectStatuses (recs : List RawProjectStatus) (m : SMap ProjectStatusRec) :
    SMap ProjectStatusRec :=
  recs.foldl
    (fun acc r =>
      match r.id with
      | some sid =>
        if sid.isEmpty || acc.hasKey sid then acc
        else acc.set sid { id := sid, name := r.name, color := r.color, type := r.type }
      | none => acc)
    m

/-- `LinearLocalReader._load_from_db`, section by section in source
order. -/
def loadFromDb (codecs : TextCodecs) (loadDocContent : Bool) (db : LoadDb)
    (c : CachedData) : CachedData :=
  let teams := match db.teams with
    | some recs => loadTeams recs c.teams
    | none => c.teams
  let users := db.users.foldl (fun m recs => loadFirstWins UserRec.id recs m) c.users
  let states := db.workflowStates.foldl
    (fun m recs => loadFirstWins StateRec.id recs m) c.states
  let issues := match db.issues with
    | some recs => loadIssues codecs teams recs c.issues
    | none => c.issues
  let commentsPair := match db.comments with
    | some recs => loadComments codecs recs c.comments c.commentsByIssue
    | none => (c.comments, c.commentsByIssue)
  let comments := commentsPair.1
  let commentsByIssue := commentsPair.2
  let projects := match db.projects with
    | some recs => loadProjects recs c.projects
    | none => c.projects
  let issueContent := match db.issueContent with
    | some recs => loadIssueContent codecs recs c.issueContent
    | none => c.issueContent
  let issues := mergeIssueContent issueContent issues
  let labels := db.labels.foldl (fun m recs => loadFirstWins LabelRec.id recs m) c.labels
  let initiatives := match db.initiatives with
    | some recs => loadSimple InitiativeRec.id recs c.initiatives
    | none => c.initiatives
  let cycles := match db.cycles with
    | some recs => loadSimple CycleRec.id recs c.cycles
    | none => c.cycles
  let documents := match db.documents with
    | some recs => loadDocuments recs c.documents
    | none => c.documents
  let documentContent := match db.documentContent with
    | some recs => if loadDocContent then loadDocumentContent recs c.documentContent
                   else c.documentContent
    | none => c.documentContent
  let milestones := match db.milestones with
    | some recs => loadSimple MilestoneRec.id recs c.milestones
    | none => c.milestones
  let projectStatuses := match db.projectStatuses with
    | some recs => loadProjectStatuses recs c.projectStatuses
    | none => c.projectStatuses
  let projectUpdates := match db.projectUpdates with
    | some recs => loadSimple ProjectUpdateRec.id recs c.projectUpdates
    | none => c.projectUpdates
  { c with teams := teams, users := users, states := states, issues := issues,
           comments := comments, commentsByIssue := commentsByIssue,
           projects := projects, issueContent := issueContent,
           labels := labels, initiatives := initiatives, cycles := cycles,
           documents := documents, documentContent := documentContent,
           milestones := milestones, projectStatuses := projectStatuses,
           projectUpdates := projectUpdates }

/-! ### Account scope -/

/-- `_is_account_scope_enabled`. -/
def scopeEnabled (cfg : ReaderCfg) : Bool :=
  !cfg.scopeAccountEmails.isEmpty || !cfg.scopeUserAccountIds.isEmpty

/-- The derived allowed-account-id set: the configured ids plus the
`userAccountId` of every user whose lowercased email is allowed. -/
def allowedAccountIds (cfg : ReaderCfg) (c : CachedData) : List String :=
  cfg.scopeUserAccountIds ++
    (if !cfg.scopeAccountEmails.isEmpty then
      c.users.values.filterMap (fun u =>
        let email := pyLower (pyTrim (pyToStr u.email))
        let accountId := pyTrim (pyToStr u.userAccountId)
        if cfg.scopeAccountEmails.contains email && !accountId.isEmpty then
          some accountId
        else none)
    else [])

/-- The derived allowed-organization-id set. -/
def allowedOrgIds (accountIds : List String) (c : CachedData) : List String :=
  c.users.values.filterMap (fun u =>
    let org := pyTrim (pyToStr u.organizationId)
    if accountIds.contains (pyTrim (pyToStr u.userAccountId)) && !org.isEmpty then
      some org
    else none)

def projectAllowed (allowedTeamIds allowedUserIds : List String)
    (p : ProjectRec) : Bool :=
  let teamIds := p.teamIds.filter (fun t => !t.isEmpty)
  if !teamIds.isEmpty then teamIds.any (fun t => allowedTeamIds.contains t)
  else
    match p.leadId with
    | some lead =>
      if !lead.isEmpty && allowedUserIds.contains lead then true
      else (p.memberIds.filter (fun u => !u.isEmpty)).any
        (fun u => allowedUserIds.contains u)
    | none =>
      (p.memberIds.filter (fun u => !u.isEmpty)).any
        (fun u => allowedUserIds.contains u)

def initiativeAllowed (allowedTeamIds allowedUserIds : List String)
    (i : InitiativeRec) : Bool :=
  let teamIds := i.teamIds.filter (fun t => !t.isEmpty)
  if !teamIds.isEmpty then teamIds.any (fun t => allowedTeamIds.contains t)
  else
    match i.ownerId with
    | some owner => !owner.isEmpty && allowedUserIds.contains owner
    | none => false

/-- `LinearLocalReader._apply_account_scope`: raises `ValueError` when
either derived allow-set is empty, otherwise filters every entity map
transitively. -/
def applyAccountScope (cfg : ReaderCfg) (c : CachedData) :
    Except String CachedData :=
  if !scopeEnabled cfg then .ok c
  else
    let accountIds := allowedAccountIds cfg c
    if accountIds.isEmpty then
      .error ("account scope configured but no matching userAccountId found")
    else
      let orgIds := allowedOrgIds accountIds c
      if orgIds.isEmpty then
        .error ("account scope configured but no matching organizationId found")
      else
        let users := c.users.filterVals (fun _ u =>
          orgIds.contains (pyTrim (pyToStr u.organizationId)))
        let allowedUserIds := users.keysList
        let teams := c.teams.filterVals (fun _ t =>
          orgIds.contains (pyTrim (pyToStr t.organizationId)))
        let allowedTeamIds := teams.keysList
        let states := c.states.filterVals (fun _ s => optMem s.teamId allowedTeamIds)
        let issues := c.issues.filterVals (fun _ i => optMem i.teamId allowedTeamIds)
        let allowedIssueIds := issues.keysList
        let issueContent := c.issueContent.filterVals (fun k _ =>
          allowedIssueIds.contains k)
        let comments := c.comments.filterVals (fun _ cm =>
          allowedIssueIds.contains cm.issueId)
        let commentsByIssue := comments.foldl
          (fun (m : SMap (List String)) p =>
            let iid := p.2.issueId
            if iid.isEmpty then m
            else if SMap.hasKey m iid then SMap.adjust m iid (fun l => l ++ [p.1])
            else SMap.set m iid [p.1])
          ([] : SMap (List String))
        let projects := c.projects.filterVals (fun _ p =>
          projectAllowed allowedTeamIds allowedUserIds p)
        let allowedProjectIds := projects.keysList
        let labels := c.labels.filterVals (fun _ l =>
          !optStrTruthy l.teamId || optMem l.teamId allowedTeamIds)
        let initiatives := c.initiatives.filterVals (fun _ i =>
          initiativeAllowed allowedTeamIds allowedUserIds i)
        let cycles := c.cycles.filterVals (fun _ cy => optMem cy.teamId allowedTeamIds)
        let documents := c.documents.filterVals (fun _ d =>
          optMem d.projectId allowedProjectIds
            || (!optStrTruthy d.projectId && optMem d.creatorId allowedUserIds))
        let milestones := c.milestones.filterVals (fun _ m =>
          optMem m.projectId allowedProjectIds)
        let projectUpdates := c.projectUpdates.filterVals (fun _ u =>
          optMem u.projectId allowedProjectIds)
        let allowedStatusIds := projects.values.filterMap (fun p =>
          if optStrTruthy p.statusId then p.statusId else none)
        let projectStatuses := c.projectStatuses.filterVals (fun k _ =>
          allowedStatusIds.contains k)
        .ok { c with users := users, teams := teams, states := states,
                     issues := issues, issueContent := issueContent,
                     comments := comments, commentsByIssue := commentsByIssue,
                     projects := projects, labels := labels,
                     initiatives := initiatives, cycles := cycles,
                     documents := documents, milestones := milestones,
                     projectUpdates := projectUpdates,
                     projectStatuses := projectStatuses }

/-! ### Post-load fixups and indexes -/

/-- The `project["state"]` fixup in `_reload_cache`. -/
def resolveProjectStates (c : CachedData) : CachedData :=
  { c with projects := c.projects.map (fun p =>
      match p.2.statusId with
      | some sid =>
        if sid.isEmpty then p
        else
          match c.projectStatuses.get? sid with
          | some st => (p.1, { p.2 with state := st.name })
          | none => p
      | none => p) }

/-- `_bump` (falsy keys are skipped). -/
def bumpCount (counter : SMap Nat) (key : Option String) : SMap Nat :=
  match key with
  | none => counter
  | some k =>
    if k.isEmpty then counter
    else counter.set k (((counter.get? k).getD 0) + 1)

/-- `_bump_nested`. -/
def bumpNested (counter : SMap (SMap Nat)) (key : Option String)
    (state : String) : SMap (SMap Nat) :=
  match key with
  | none => counter
  | some k =>
    if k.isEmpty then counter
    else
      let inner := (counter.get? k).getD []
      counter.set k (inner.set state (((inner.get? state).getD 0) + 1))

/-- The state type used for the nested counters:
`cache.states.get(state_id, {}).get("type", "unknown")`.  A state whose
`type` field holds `None` is keyed under the rendering of `None`. -/
def issueStateType (states : SMap StateRec) (stateId : Option String) : String :=
  match stateId with
  | none => "unknown"
  | some sid =>
    match states.get? sid with
    | none => "unknown"
    | some st => pyShowOptStr st.type

/-- `LinearLocalReader._build_issue_indexes`. -/
def buildIssueIndexes (c : CachedData) : CachedData :=
  let step := fun (acc : SMap Nat × SMap Nat × SMap Nat × SMap (SMap Nat)
      × SMap (SMap Nat) × SMap (SMap Nat)) (i : Issue) =>
    let stateType := issueStateType c.states i.stateId
    (bumpCount acc.1 i.teamId,
     bumpCount acc.2.1 i.projectId,
     bumpCount acc.2.2.1 i.assigneeId,
     bumpNested acc.2.2.2.1 i.teamId stateType,
     bumpNested acc.2.2.2.2.1 i.projectId stateType,
     bumpNested acc.2.2.2.2.2 i.assigneeId stateType)
  let r := c.issues.values.foldl step ([], [], [], [], [], [])
  { c with issueCountsByTeam := r.1, issueCountsByProject := r.2.1,
           issueCountsByUser := r.2.2.1,
           issueStateCountsByTeam := r.2.2.2.1,
           issueStateCountsByProject := r.2.2.2.2.1,
           issueStateCountsByUser := r.2.2.2.2.2 }

/-! ### Reload, TTL and idle refresh -/

def REQUIRED_STORE_KEYS : List String :=
  ["issues", "teams", "users", "workflow_states", "projects"]

/-- The alphabetically sorted missing-required-store names
(`sorted(REQUIRED_STORE_KEYS - detected_keys)`). -/
def missingRequired (detected : List String) : List String :=
  (["issues", "projects", "teams", "users", "workflow_states"]).filter
    (fun k => !detected.contains k)

/-- The per-database loop of `_reload_cache`: accumulate the cache under
construction, the hard and soft store read errors, and the union of
detected store keys. -/
def loadAllDbs (codecs : TextCodecs) (loadDocContent : Bool)
    (dbs : List LoadDb) (now : Rat) :
    CachedData × List String × List String × List String :=
  dbs.foldl
    (fun (acc : CachedData × List String × List String × List String) db =>
      (loadFromDb codecs loadDocContent db acc.1,
       acc.2.1 ++ db.hardReadErrors,
       acc.2.2.1 ++ db.softReadErrors,
       acc.2.2.2 ++ (detectedStoreKeys db).filter (fun k => !acc.2.2.2.contains k)))
    (CachedData.init now, [], [], [])

/-- `LinearLocalReader._reload_cache`.  `openResult` stands for
`_get_wrapper` plus `_find_all_linear_dbs`, which either raise or yield
the non-empty list of Linear databases.  Returns the new reader state
and whether the reload raised (the exception message). -/
def reloadCache (cfg : ReaderCfg) (codecs : TextCodecs)
    (openResult : Except String (List LoadDb)) (now : Rat)
    (s : ReaderState) : ReaderState × Except String Unit :=
  match openResult with
  | .error e => ({ s with health := setDegraded now e s.health }, .error e)
  | .ok dbs =>
    let loaded := loadAllDbs codecs cfg.loadDocumentContent dbs now
    let cache1 := loaded.1
    let loadErrors := loaded.2.1
    let softErrors := loaded.2.2.1
    let detectedKeys := loaded.2.2.2
    match applyAccountScope cfg cache1 with
    | .error e => ({ s with health := setDegraded now e s.health }, .error e)
    | .ok cache2 =>
      let cache3 := resolveProjectStates cache2
      let cache4 := buildIssueIndexes cache3
      let s1 := { s with cache := cache4 }
      let missing := missingRequired detectedKeys
      let health :=
        if !missing.isEmpty then
          setDegraded now ("missing required stores: " ++ String.intercalate (", ") missing)
            s1.health
        else if cache4.issues.isEmpty || cache4.teams.isEmpty || cache4.users.isEmpty then
          setDegraded now ("required entities are missing from cache") s1.health
        else if !loadErrors.isEmpty then
          setDegraded now ("store read errors: " ++ toString loadErrors.length) s1.health
        else
          -- soft errors are only logged
          setHealthy now s1.health
      let _ := softErrors
      ({ s1 with health := health }, .ok ())

/-- `LinearLocalReader.mark_stale`. -/
def markStale (s : ReaderState) : ReaderState :=
  { s with forceNextRefresh := true }

/-- `LinearLocalReader.ensure_fresh`: mark the cache stale when the gap
since the previous tool call reaches the idle threshold; the first-ever
call (last timestamp still 0.0) only records the timestamp. -/
def ensureFresh (cfg : ReaderCfg) (now : Rat) (s : ReaderState) : ReaderState :=
  let last := s.lastToolCallAt
  let s1 := { s with lastToolCallAt := now }
  if last == 0 then s1
  else if now - last ≥ cfg.idleRefreshThreshold then
    { s1 with forceNextRefresh := true }
  else s1

/-- The reload condition of `_ensure_cache`. -/
def ensureCacheReloads (now : Rat) (s : ReaderState) : Bool :=
  s.forceNextRefresh || s.cache.isExpired now || s.cache.teams.isEmpty

/-- `LinearLocalReader._ensure_cache`: every entity-view property goes
through this.  The `Bool` reports whether a full reload was triggered. -/
def ensureCache (cfg : ReaderCfg) (codecs : TextCodecs)
    (openResult : Except String (List LoadDb)) (now : Rat)
    (s : ReaderState) : ReaderState × CachedData × Bool :=
  if ensureCacheReloads now s then
    let s1 := { s with forceNextRefresh := false }
    let (s2, _) := reloadCache cfg codecs openResult now s1
    (s2, s2.cache, true)
  else (s, s.cache, false)

/-! ### Scored finders

`find_user` and `find_project` collect `(score, candidate)` pairs in map
insertion order and run `candidates.sort(key=lambda x: -x[0])`, a stable
sort, then take the head: the first candidate among those of maximal
score.  `pickBest` folds the same selection. -/

def pickBest {α : Type} : Option (Nat × α) → Nat × α → Option (Nat × α)
  | none, c => some c
  | some b, c => if c.1 > b.1 then some c else some b

/-- Head of the stable descending sort of the scored candidates. -/
def bestCandidate {α : Type} (l : List (Nat × α)) : Option (Nat × α) :=
  l.foldl pickBest none

/-- The score `find_user` assigns, `none` when the candidate is rejected
(no substring match on name or display name). -/
def findUserScore (searchLower : String) (u : UserRec) : Option Nat :=
  let nameLower := pyLower (pyToStr u.name)
  let displayLower := pyLower (pyToStr u.displayName)
  if strContains nameLower searchLower || strContains displayLower searchLower then
    some
      (if strStarts nameLower searchLower then 100
       else if strContains (" " ++ nameLower) (" " ++ searchLower) then 50
       else if strStarts displayLower searchLower then 40
       else 10)
  else none

/-- `LinearLocalReader.find_user` over the user candidates in map
insertion order. -/
def findUser (users : List UserRec) (search : String) : Option UserRec :=
  let searchLower := pyLower search
  let candidates := users.filterMap (fun u =>
    (findUserScore searchLower u).map (fun s => (s, u)))
  (bestCandidate candidates).map Prod.snd

/-- The score `find_project` assigns. -/
def findProjectScore (searchLower : String) (p : ProjectRec) : Option Nat :=
  let nameLower := pyLower (pyToStr p.name)
  let slugLower := pyLower (pyToStr p.slugId)
  if strContains nameLower searchLower || searchLower == slugLower then
    some
      (if nameLower == searchLower then 100
       else if strStarts nameLower searchLower then 80
       else if slugLower == searchLower then 70
       else 10)
  else none

/-- `LinearLocalReader.find_project`. -/
def findProject (projects : List ProjectRec) (search : String) : Option ProjectRec :=
  let searchLower := pyLower search
  let candidates := projects.filterMap (fun p =>
    (findProjectScore searchLower p).map (fun s => (s, p)))
  (bestCandidate candidates).map Prod.snd

/-! ## The specified store-classification algorithm

The spec states: apply the predicates in a fixed priority order; the
first matching predicate claims the store; users, workflow-states and
labels accumulate into lists, all other kinds keep only the first
claimed store.  The definitions below follow that wording so the code
can be compared against it. -/

/-- The fifteen entity kinds, in the priority order of the spec. -/
inductive EntityKind where
  | issue | team | user | workflowState | comment | project | issueContent
  | label | initiative | projectStatus | cycle | document | documentContent
  | milestone | projectUpdate
deriving Repr, DecidableEq

def kindPriority : List EntityKind :=
  [.issue, .team, .user, .workflowState, .comment, .project, .issueContent,
   .label, .initiative, .projectStatus, .cycle, .document, .documentContent,
   .milestone, .projectUpdate]

/-- The classification predicate of each kind. -/
def kindMatches (k : EntityKind) (fs : List (String × JValue)) : Bool :=
  match k with
  | .issue => isIssueRecord fs
  | .team => isTeamRecord fs
  | .user => isUserRecord fs
  | .workflowState => isWorkflowStateRecord fs
  | .comment => isCommentRecord fs
  | .project => isProjectRecord fs
  | .issueContent => isIssueContentRecord fs
  | .label => isLabelRecord fs
  | .initiative => isInitiativeRecord fs
  | .projectStatus => isProjectStatusRecord fs
  | .cycle => isCycleRecord fs
  | .document => isDocumentRecord fs
  | .documentContent => isDocumentContentRecord fs
  | .milestone => isMilestoneRecord fs
  | .projectUpdate => isProjectUpdateRecord fs

/-- The kinds whose predicate accepts the record, in priority order. -/
def matchingKinds (fs : List (String × JValue)) : List EntityKind :=
  kindPriority.filter (fun k => kindMatches k fs)

/-- Modelled from the spec: kind `k` claims store `name` — accumulating
kinds append the store, singleton kinds keep only the first claimed
store (a later claimed store is dropped). -/
def claimKind (r : DetectedStores) (name : String) (k : EntityKind) :
    DetectedStores :=
  match k with
  | .issue => if r.issues.isNone then { r with issues := some name } else r
  | .team => if r.teams.isNone then { r with teams := some name } else r
  | .user =>
    if r.users.contains name then r else { r with users := r.users ++ [name] }
  | .workflowState =>
    if r.workflow_states.contains name then r
    else { r with workflow_states := r.workflow_states ++ [name] }
  | .comment => if r.comments.isNone then { r with comments := some name } else r
  | .project => if r.projects.isNone then { r with projects := some name } else r
  | .issueContent =>
    if r.issue_content.isNone then { r with issue_content := some name } else r
  | .label =>
    if r.labels.contains name then r else { r with labels := r.labels ++ [name] }
  | .initiative =>
    if r.initiatives.isNone then { r with initiatives := some name } else r
  | .projectStatus =>
    if r.project_statuses.isNone then { r with project_statuses := some name } else r
  | .cycle => if r.cycles.isNone then { r with cycles := some name } else r
  | .document => if r.documents.isNone then { r with documents := some name } else r
  | .documentContent =>
    if r.document_content.isNone then { r with document_content := some name } else r
  | .milestone =>
    if r.milestones.isNone then { r with milestones := some name } else r
  | .projectUpdate =>
    if r.project_updates.isNone then { r with project_updates := some name } else r

/-- Modelled from the spec: the first matching predicate claims the
store. -/
def claimClassify (r : DetectedStores) (name : String)
    (fs : List (String × JValue)) : DetectedStores :=
  match kindPriority.find? (fun k => kindMatches k fs) with
  | none => r
  | some k => claimKind r name k

/-- Modelled from the spec: one store of the claimed algorithm, with the
same skipping, first-record sampling and error tolerance as the code. -/
def claimDetectStep (r : DetectedStores) (s : DetStore) : DetectedStores :=
  if detSkipName s.name then r
  else
    match s.name, s.read with
    | some name, .ok records =>
      match records.head? with
      | some (.obj fs) => claimClassify r name fs
      | _ => r
    | _, _ => r

/-- Modelled from the spec: `detect_stores` as the claim states it. -/
def claimDetectStores (stores : List DetStore) : DetectedStores :=
  stores.foldl claimDetectStep DetectedStores.init

/-! ## Fixtures and auxiliary definitions used by the verification -/

/-- The message of a semantic tool error raised by `_normalize_result`. -/
def semanticMsg (r : McpResult) : String :=
  if (extractText r).isEmpty then "official MCP returned an error" else extractText r

/-- The `ValueError` message for an empty derived account-id set. -/
def scopeAccountMsg : String :=
  "account scope configured but no matching userAccountId found"

/-- The `ValueError` message for an empty derived organization-id set. -/
def scopeOrgMsg : String :=
  "account scope configured but no matching organizationId found"

/-- Keys of an association list are distinct; every map the reader builds
by `SMap.set` from an empty map satisfies this. -/
def NodupKeys {α : Type} (m : SMap α) : Prop :=
  (m.map Prod.fst).Nodup

/-- The record `detect_stores` samples from a store, when any. -/
def sampledRecord (s : DetStore) : Option (List (String × JValue)) :=
  match s.read with
  | .ok recs =>
    match recs.head? with
    | some (.obj fs) => some fs
    | _ => none
  | .error _ => none

/-- The handler payload of the repository test
`test_stale_fallback_has_metadata_when_remote_down`. -/
def c1Fields : List (String × JValue) :=
  [("source", .str "local-stale"), ("data", .arr [.num 1, .num 2, .num 3])]

/-- The read environment of that test: degraded reader, registered
handler returning `c1Fields`, upstream raising a non-semantic error. -/
def c1Env : ReadEnv :=
  ⟨true, true, .ok (.obj c1Fields), .err "unused" "unused",
   .err "official_down" "offline"⟩

/-- An issue record in the first database referencing a team that only
appears in the second database. -/
def c7Issue : RawIssue :=
  ⟨"i1", some ("WRONG-9"), some ("title"), none, none, some 1, none, none,
   some ("T"), none, none, none, [], none, none, none⟩

def c7Team : TeamRec := ⟨"T", some ("ABC"), some ("Team"), some ("org")⟩

def c7Db1 : LoadDb := { LoadDb.empty with issues := some [c7Issue] }

def c7Db2 : LoadDb := { LoadDb.empty with teams := some [c7Team] }

/-- Reader configuration with account scoping disabled. -/
def c7Cfg : ReaderCfg := ⟨[], [], false, 60⟩

def c7Codecs : TextCodecs := ⟨fun _ => "", fun _ => ""⟩

/-- A single database holding both the team and the issue. -/
def c7wDb : LoadDb :=
  { LoadDb.empty with teams := some [c7Team], issues := some [c7Issue] }

/-- The issue the reader derives from `c7Issue` once its team is in the
same database. -/
def c7wRec : Issue :=
  ⟨"i1", "ABC-1", some ("title"), none, some 1, none, none, some ("T"),
   none, none, none, [], none, none, none⟩

/-- A user whose name has the search string as a proper name prefix,
inserted before an exact-name user. -/
def c8UserPre : UserRec :=
  ⟨"u1", some ("alicette"), none, none, none, none, none⟩

def c8UserExact : UserRec :=
  ⟨"u2", some ("alice"), none, none, none, none, none⟩

def c8ProjPre : ProjectRec :=
  ⟨"p1", some ("alphabet"), none, none, none, none, none, none, none, [],
   [], none, none, none, none, none⟩

def c8ProjExact : ProjectRec :=
  ⟨"p2", some ("alpha"), none, none, none, none, none, none, none, [],
   [], none, none, none, none, none⟩

/-- A record matching only the issue predicate. -/
def c9RecIssue : List (String × JValue) :=
  [("number", .num 1), ("teamId", .str "t"), ("stateId", .str "s"),
   ("title", .str "x")]

/-- A record matching both the issue predicate and the cycle predicate. -/
def c9RecBoth : List (String × JValue) :=
  [("number", .num 2), ("teamId", .str "t"), ("stateId", .str "s"),
   ("title", .str "y"), ("startsAt", .str "a"), ("endsAt", .str "b")]

def c9StoreA : DetStore := ⟨some ("storeA"), .ok [.obj c9RecIssue]⟩

def c9StoreB : DetStore := ⟨some ("storeB"), .ok [.obj c9RecBoth]⟩

/-- A reader state holding a freshly loaded snapshot with one team. -/
def c10State : ReaderState :=
  ⟨{ CachedData.init 0 with teams := [("T", c7Team)] }, LocalHealth.init,
   false, 0⟩

/-! ## Helper lemmas -/

lemma SMap.mem_set {α : Type} {m : SMap α} {k : String} {v : α}
    {q : String × α} (h : q ∈ SMap.set m k v) : q ∈ m ∨ q = (k, v) := by
  unfold SMap.set at h
  by_cases hk : m.any (fun p => p.1 == k)
  · rw [if_pos hk] at h
    rcases List.mem_map.mp h with ⟨p, hp, hq⟩
    by_cases hpk : p.1 == k
    · simp [hpk] at hq
      exact Or.inr hq.symm
    · simp [hpk] at hq
      exact Or.inl (hq ▸ hp)
  · rw [if_neg hk] at h
    rcases List.mem_append.mp h with h | h
    · exact Or.inl h
    · simp at h
      exact Or.inr h

lemma SMap.get?_mem {α : Type} {m : SMap α} {k : String} {v : α}
    (h : SMap.get? m k = some v) : (k, v) ∈ m := by
  unfold SMap.get? at h
  rcases hf : m.find? (fun p => p.1 == k) with _ | p
  · rw [hf] at h; simp at h
  · rw [hf] at h
    simp at h
    have hmem := List.mem_of_find?_eq_some hf
    have hkey := List.find?_some hf
    simp at hkey
    have : p = (k, v) := by
      rcases p with ⟨p1, p2⟩
      simp at hkey h
      simp [hkey, h]
    exact this ▸ hmem

lemma SMap.mem_adjust {α : Type} {m : SMap α} {k : String} {f : α → α}
    {q : String × α} (h : q ∈ SMap.adjust m k f) :
    ∃ q₀ ∈ m, q.1 = q₀.1 ∧ (q.2 = q₀.2 ∨ q.2 = f q₀.2) := by
  unfold SMap.adjust at h
  rcases List.mem_map.mp h with ⟨p, hp, hq⟩
  by_cases hpk : p.1 == k
  · simp [hpk] at hq
    exact ⟨p, hp, by simp [← hq], Or.inr (by simp [← hq])⟩
  · simp [hpk] at hq
    exact ⟨p, hp, by simp [← hq], Or.inl (by simp [← hq])⟩

lemma NodupKeys.nil {α : Type} : NodupKeys ([] : SMap α) := List.nodup_nil

lemma NodupKeys.cons_iff {α : Type} {q : String × α} {t : SMap α} :
    NodupKeys (q :: t) ↔ (q.1 ∉ t.map Prod.fst ∧ NodupKeys t) := by
  unfold NodupKeys
  simp [List.nodup_cons]

lemma NodupKeys.set {α : Type} {m : SMap α} (h : NodupKeys m) (k : String)
    (v : α) : NodupKeys (SMap.set m k v) := by
  unfold SMap.set
  by_cases hk : m.any (fun p => p.1 == k)
  · rw [if_pos hk]
    unfold NodupKeys at h ⊢
    have : (m.map (fun p => if p.1 == k then (k, v) else p)).map Prod.fst
        = m.map Prod.fst := by
      rw [List.map_map]
      apply List.map_congr_left
      intro p _
      by_cases hpk : p.1 = k
      · simp [hpk]
      · simp [hpk]
    rw [this]
    exact h
  · rw [if_neg hk]
    unfold NodupKeys at h ⊢
    rw [List.map_append]
    simp only [List.map_cons, List.map_nil]
    rw [List.nodup_append]
    refine ⟨h, List.nodup_singleton _, ?_⟩
    intro a ha
    simp only [List.mem_singleton]
    intro heq
    subst heq
    rcases List.mem_map.mp ha with ⟨p, hp, hpa⟩
    simp only [List.any_eq_true] at hk
    exact hk ⟨p, hp, by simp [hpa]⟩

lemma SMap.get?_cons {α : Type} (q : String × α) (t : SMap α) (k : String) :
    SMap.get? (q :: t) k = if q.1 == k then some q.2 else SMap.get? t k := by
  unfold SMap.get?
  by_cases h : q.1 == k <;> simp [List.find?, h]

lemma SMap.get?_filterVals_of_nodup {α : Type} {m : SMap α}
    {p : String → α → Bool} {k : String} {v : α} (hn : NodupKeys m)
    (h : SMap.get? (SMap.filterVals m p) k = some v) :
    SMap.get? m k = some v := by
  induction m with
  | nil => simp [SMap.filterVals, SMap.get?] at h
  | cons q t ih =>
    have hn2 := NodupKeys.cons_iff.mp hn
    by_cases hq : p q.1 q.2
    · rw [show SMap.filterVals (q :: t) p = q :: SMap.filterVals t p by
        simp [SMap.filterVals, hq]] at h
      rw [SMap.get?_cons] at h
      rw [SMap.get?_cons]
      by_cases hqk : q.1 == k
      · rw [if_pos hqk] at h
        rw [if_pos hqk]
        exact h
      · rw [if_neg hqk] at h
        rw [if_neg hqk]
        exact ih hn2.2 h
    · rw [show SMap.filterVals (q :: t) p = SMap.filterVals t p by
        simp [SMap.filterVals, hq]] at h
      have hrec := ih hn2.2 h
      have hmem := SMap.get?_mem hrec
      rw [SMap.get?_cons]
      by_cases hqk : q.1 == k
      · exfalso
        have hkmem : k ∈ t.map Prod.fst := List.mem_map.mpr ⟨(k, v), hmem, rfl⟩
        have hq1 : q.1 = k := by simpa using hqk
        exact hn2.1 (hq1 ▸ hkmem)
      · rw [if_neg hqk]
        exact hrec

lemma SMap.get?_isSome_of_key_mem {α : Type} {m : SMap α} {k : String}
    (h : k ∈ SMap.keysList m) : ∃ v, SMap.get? m k = some v := by
  induction m with
  | nil => simp [SMap.keysList] at h
  | cons q t ih =>
    rw [SMap.get?_cons]
    by_cases hqk : q.1 == k
    · exact ⟨q.2, by rw [if_pos hqk]⟩
    · have : k ∈ SMap.keysList t := by
        rcases List.mem_cons.mp h with h | h
        · exfalso; exact hqk (by simp [h])
        · exact h
      rcases ih this with ⟨v, hv⟩
      exact ⟨v, by rw [if_neg hqk]; exact hv⟩


lemma loadIssues_mem {codecs : TextCodecs} {T : SMap TeamRec}
    {recs : List RawIssue} {m : SMap Issue} {q : String × Issue}
    (h : q ∈ loadIssues codecs T recs m) :
    q ∈ m ∨ ∃ r ∈ recs, q.2 = mkIssue codecs T r := by
  induction recs generalizing m with
  | nil => exact Or.inl h
  | cons r t ih =>
    rcases ih (m := SMap.set m r.id (mkIssue codecs T r)) h with hm | ⟨r2, hr2, hq⟩
    · rcases SMap.mem_set hm with hm | hq
      · exact Or.inl hm
      · exact Or.inr ⟨r, List.mem_cons_self r t, by rw [hq]⟩
    · exact Or.inr ⟨r2, List.mem_cons_of_mem r hr2, hq⟩

lemma mergeIssueContent_mem {ic : SMap String} {m : SMap Issue}
    {q : String × Issue} (h : q ∈ mergeIssueContent ic m) :
    ∃ q₀ ∈ m, q.2.identifier = q₀.2.identifier ∧ q.2.teamId = q₀.2.teamId
      ∧ q.2.number = q₀.2.number := by
  induction ic generalizing m with
  | nil => exact ⟨q, h, rfl, rfl, rfl⟩
  | cons p t ih =>
    have hstep : mergeIssueContent (p :: t) m = mergeIssueContent t
        (match SMap.get? m p.1 with
         | some isr =>
           if !optStrTruthy isr.description then
             SMap.adjust m p.1 (fun i => { i with description := some p.2 })
           else m
         | none => m) := rfl
    rw [hstep] at h
    rcases hg : SMap.get? m p.1 with _ | isr
    · rw [hg] at h
      exact ih h
    · by_cases hd : !optStrTruthy isr.description
      · simp only [hg, hd, if_true] at h
        rcases ih h with ⟨q₀, hq₀, h1, h2, h3⟩
        rcases SMap.mem_adjust hq₀ with ⟨q₁, hq₁, _, hv⟩
        rcases hv with hv | hv
        · exact ⟨q₁, hq₁, by rw [h1, hv], by rw [h2, hv], by rw [h3, hv]⟩
        · exact ⟨q₁, hq₁, by rw [h1, hv], by rw [h2, hv], by rw [h3, hv]⟩
      · simp only [hg, hd, if_false, Bool.not_eq_true] at h
        exact ih h

lemma loadTeams_nodup {recs : List TeamRec} {m : SMap TeamRec}
    (h : NodupKeys m) : NodupKeys (loadTeams recs m) := by
  induction recs generalizing m with
  | nil => exact h
  | cons r t ih => exact ih (NodupKeys.set h r.id r)

lemma loadFromDb_teams (codecs : TextCodecs) (ldc : Bool) (db : LoadDb)
    (c : CachedData) :
    (loadFromDb codecs ldc db c).teams
      = match db.teams with
        | some recs => loadTeams recs c.teams
        | none => c.teams := by
  obtain ⟨dt, du, dw, di, dc2, dp, dic, dl, din, dcy, dd, ddc, dm, dps, dpu, dhe, dse⟩ := db
  rcases dt <;> rfl

lemma loadFromDb_issues (codecs : TextCodecs) (ldc : Bool) (db : LoadDb)
    (c : CachedData) :
    (loadFromDb codecs ldc db c).issues
      = mergeIssueContent
          (match db.issueContent with
           | some recs => loadIssueContent codecs recs c.issueContent
           | none => c.issueContent)
          (match db.issues with
           | some recs =>
             loadIssues codecs
               (match db.teams with
                | some trecs => loadTeams trecs c.teams
                | none => c.teams) recs c.issues
           | none => c.issues) := by
  obtain ⟨dt, du, dw, di, dc2, dp, dic, dl, din, dcy, dd, ddc, dm, dps, dpu, dhe, dse⟩ := db
  rcases dt <;> rcases di <;> rcases dic <;> rfl

/-- The issue invariant after `_load_from_db` on one database starting
from an empty snapshot: every loaded issue carries the identifier derived
from the teams map of that same load. -/
lemma loadFromDb_issue_invariant (codecs : TextCodecs) (ldc : Bool)
    (db : LoadDb) (now : Rat) :
    ∀ q ∈ (loadFromDb codecs ldc db (CachedData.init now)).issues,
      q.2.identifier = issueTeamKey (loadFromDb codecs ldc db (CachedData.init now)).teams
          q.2.teamId ++ "-" ++ pyShowOptInt q.2.number := by
  intro q hq
  rw [loadFromDb_issues] at hq
  rw [loadFromDb_teams]
  rcases mergeIssueContent_mem hq with ⟨q₀, hq₀, h1, h2, h3⟩
  rcases hdbi : db.issues with _ | recs
  · rw [hdbi] at hq₀
    simp [CachedData.init] at hq₀
  · rw [hdbi] at hq₀
    rcases loadIssues_mem hq₀ with hm | ⟨r, _, hq2⟩
    · simp [CachedData.init] at hm
    · rw [h1, h2, h3, hq2]
      rfl


lemma buildIssueIndexes_issues (c : CachedData) :
    (buildIssueIndexes c).issues = c.issues := rfl

lemma buildIssueIndexes_teams (c : CachedData) :
    (buildIssueIndexes c).teams = c.teams := rfl

lemma resolveProjectStates_issues (c : CachedData) :
    (resolveProjectStates c).issues = c.issues := rfl

lemma resolveProjectStates_teams (c : CachedData) :
    (resolveProjectStates c).teams = c.teams := rfl

lemma loadAllDbs_single (codecs : TextCodecs) (ldc : Bool) (db : LoadDb)
    (now : Rat) :
    (loadAllDbs codecs ldc [db] now).1
      = loadFromDb codecs ldc db (CachedData.init now) := rfl

lemma loadFromDb_teams_nodup (codecs : TextCodecs) (ldc : Bool) (db : LoadDb)
    (now : Rat) :
    NodupKeys (loadFromDb codecs ldc db (CachedData.init now)).teams := by
  rw [loadFromDb_teams]
  rcases db.teams with _ | recs
  · exact NodupKeys.nil
  · exact loadTeams_nodup (by simp [CachedData.init]; exact NodupKeys.nil)

lemma kindMatches_iff (k : EntityKind) (fs : List (String × JValue)) :
    kindMatches k fs = true ↔ k ∈ matchingKinds fs := by
  unfold matchingKinds
  rw [List.mem_filter]
  have hk : k ∈ kindPriority := by cases k <;> simp [kindPriority]
  simp [hk]

lemma detClassify_eq_claimClassify (r : DetectedStores) (name : String)
    (fs : List (String × JValue)) (h : (matchingKinds fs).length ≤ 1) :
    detClassify r name fs = claimClassify r name fs := by
  rcases hm : matchingKinds fs with _ | ⟨k0, _ | ⟨k1, t⟩⟩
  · have hall : ∀ j, kindMatches j fs = false := by
      intro j
      cases hv : kindMatches j fs
      · rfl
      · have := (kindMatches_iff j fs).mp hv
        rw [hm] at this
        simp at this
    have hf0 : isIssueRecord fs = false := hall EntityKind.issue
    have hf1 : isTeamRecord fs = false := hall EntityKind.team
    have hf2 : isUserRecord fs = false := hall EntityKind.user
    have hf3 : isWorkflowStateRecord fs = false := hall EntityKind.workflowState
    have hf4 : isCommentRecord fs = false := hall EntityKind.comment
    have hf5 : isProjectRecord fs = false := hall EntityKind.project
    have hf6 : isIssueContentRecord fs = false := hall EntityKind.issueContent
    have hf7 : isLabelRecord fs = false := hall EntityKind.label
    have hf8 : isInitiativeRecord fs = false := hall EntityKind.initiative
    have hf9 : isProjectStatusRecord fs = false := hall EntityKind.projectStatus
    have hf10 : isCycleRecord fs = false := hall EntityKind.cycle
    have hf11 : isDocumentRecord fs = false := hall EntityKind.document
    have hf12 : isDocumentContentRecord fs = false := hall EntityKind.documentContent
    have hf13 : isMilestoneRecord fs = false := hall EntityKind.milestone
    have hf14 : isProjectUpdateRecord fs = false := hall EntityKind.projectUpdate
    simp [detClassify, claimClassify, claimKind, kindPriority, kindMatches, List.find?, hf0, hf1, hf2, hf3, hf4, hf5, hf6, hf7, hf8, hf9, hf10, hf11, hf12, hf13, hf14]
  · have htrue : kindMatches k0 fs = true := by
      rw [kindMatches_iff, hm]
      simp
    have hfalse : ∀ j, j ≠ k0 → kindMatches j fs = false := by
      intro j hj
      cases hv : kindMatches j fs
      · rfl
      · have := (kindMatches_iff j fs).mp hv
        rw [hm] at this
        simp at this
        exact absurd this hj
    cases k0 with
    | issue =>
      have ht : isIssueRecord fs = true := htrue
      have hf1 : isTeamRecord fs = false := hfalse EntityKind.team (by decide)
      have hf2 : isUserRecord fs = false := hfalse EntityKind.user (by decide)
      have hf3 : isWorkflowStateRecord fs = false := hfalse EntityKind.workflowState (by decide)
      have hf4 : isCommentRecord fs = false := hfalse EntityKind.comment (by decide)
      have hf5 : isProjectRecord fs = false := hfalse EntityKind.project (by decide)
      have hf6 : isIssueContentRecord fs = false := hfalse EntityKind.issueContent (by decide)
      have hf7 : isLabelRecord fs = false := hfalse EntityKind.label (by decide)
      have hf8 : isInitiativeRecord fs = false := hfalse EntityKind.initiative (by decide)
      have hf9 : isProjectStatusRecord fs = false := hfalse EntityKind.projectStatus (by decide)
      have hf10 : isCycleRecord fs = false := hfalse EntityKind.cycle (by decide)
      have hf11 : isDocumentRecord fs = false := hfalse EntityKind.document (by decide)
      have hf12 : isDocumentContentRecord fs = false := hfalse EntityKind.documentContent (by decide)
      have hf13 : isMilestoneRecord fs = false := hfalse EntityKind.milestone (by decide)
      have hf14 : isProjectUpdateRecord fs = false := hfalse EntityKind.projectUpdate (by decide)
      simp [detClassify, claimClassify, claimKind, kindPriority, kindMatches, List.find?, ht, hf1, hf2, hf3, hf4, hf5, hf6, hf7, hf8, hf9, hf10, hf11, hf12, hf13, hf14]
    | team =>
      have ht : isTeamRecord fs = true := htrue
      have hf0 : isIssueRecord fs = false := hfalse EntityKind.issue (by decide)
      have hf2 : isUserRecord fs = false := hfalse EntityKind.user (by decide)
      have hf3 : isWorkflowStateRecord fs = false := hfalse EntityKind.workflowState (by decide)
      have hf4 : isCommentRecord fs = false := hfalse EntityKind.comment (by decide)
      have hf5 : isProjectRecord fs = false := hfalse EntityKind.project (by decide)
      have hf6 : isIssueContentRecord fs = false := hfalse EntityKind.issueContent (by decide)
      have hf7 : isLabelRecord fs = false := hfalse EntityKind.label (by decide)
      have hf8 : isInitiativeRecord fs = false := hfalse EntityKind.initiative (by decide)
      have hf9 : isProjectStatusRecord fs = false := hfalse EntityKind.projectStatus (by decide)
      have hf10 : isCycleRecord fs = false := hfalse EntityKind.cycle (by decide)
      have hf11 : isDocumentRecord fs = false := hfalse EntityKind.document (by decide)
      have hf12 : isDocumentContentRecord fs = false := hfalse EntityKind.documentContent (by decide)
      have hf13 : isMilestoneRecord fs = false := hfalse EntityKind.milestone (by decide)
      have hf14 : isProjectUpdateRecord fs = false := hfalse EntityKind.projectUpdate (by decide)
      simp [detClassify, claimClassify, claimKind, kindPriority, kindMatches, List.find?, ht, hf0, hf2, hf3, hf4, hf5, hf6, hf7, hf8, hf9, hf10, hf11, hf12, hf13, hf14]
    | user =>
      have ht : isUserRecord fs = true := htrue
      have hf0 : isIssueRecord fs = false := hfalse EntityKind.issue (by decide)
      have hf1 : isTeamRecord fs = false := hfalse EntityKind.team (by decide)
      have hf3 : isWorkflowStateRecord fs = false := hfalse EntityKind.workflowState (by decide)
      have hf4 : isCommentRecord fs = false := hfalse EntityKind.comment (by decide)
      have hf5 : isProjectRecord fs = false := hfalse EntityKind.project (by decide)
      have hf6 : isIssueContentRecord fs = false := hfalse EntityKind.issueContent (by decide)
      have hf7 : isLabelRecord fs = false := hfalse EntityKind.label (by decide)
      have hf8 : isInitiativeRecord fs = false := hfalse EntityKind.initiative (by decide)
      have hf9 : isProjectStatusRecord fs = false := hfalse EntityKind.projectStatus (by decide)
      have hf10 : isCycleRecord fs = false := hfalse EntityKind.cycle (by decide)
      have hf11 : isDocumentRecord fs = false := hfalse EntityKind.document (by decide)
      have hf12 : isDocumentContentRecord fs = false := hfalse EntityKind.documentContent (by decide)
      have hf13 : isMilestoneRecord fs = false := hfalse EntityKind.milestone (by decide)
      have hf14 : isProjectUpdateRecord fs = false := hfalse EntityKind.projectUpdate (by decide)
      simp [detClassify, claimClassify, claimKind, kindPriority, kindMatches, List.find?, ht, hf0, hf1, hf3, hf4, hf5, hf6, hf7, hf8, hf9, hf10, hf11, hf12, hf13, hf14]
    | workflowState =>
      have ht : isWorkflowStateRecord fs = true := htrue
      have hf0 : isIssueRecord fs = false := hfalse EntityKind.issue (by decide)
      have hf1 : isTeamRecord fs = false := hfalse EntityKind.team (by decide)
      have hf2 : isUserRecord fs = false := hfalse EntityKind.user (by decide)
      have hf4 : isCommentRecord fs = false := hfalse EntityKind.comment (by decide)
      have hf5 : isProjectRecord fs = false := hfalse EntityKind.project (by decide)
      have hf6 : isIssueContentRecord fs = false := hfalse EntityKind.issueContent (by decide)
      have hf7 : isLabelRecord fs = false := hfalse EntityKind.label (by decide)
      have hf8 : isInitiativeRecord fs = false := hfalse EntityKind.initiative (by decide)
      have hf9 : isProjectStatusRecord fs = false := hfalse EntityKind.projectStatus (by decide)
      have hf10 : isCycleRecord fs = false := hfalse EntityKind.cycle (by decide)
      have hf11 : isDocumentRecord fs = false := hfalse EntityKind.document (by decide)
      have hf12 : isDocumentContentRecord fs = false := hfalse EntityKind.documentContent (by decide)
      have hf13 : isMilestoneRecord fs = false := hfalse EntityKind.milestone (by decide)
      have hf14 : isProjectUpdateRecord fs = false := hfalse EntityKind.projectUpdate (by decide)
      simp [detClassify, claimClassify, claimKind, kindPriority, kindMatches, List.find?, ht, hf0, hf1, hf2, hf4, hf5, hf6, hf7, hf8, hf9, hf10, hf11, hf12, hf13, hf14]
    | comment =>
      have ht : isCommentRecord fs = true := htrue
      have hf0 : isIssueRecord fs = false := hfalse EntityKind.issue (by decide)
      have hf1 : isTeamRecord fs = false := hfalse EntityKind.team (by decide)
      have hf2 : isUserRecord fs = false := hfalse EntityKind.user (by decide)
      have hf3 : isWorkflowStateRecord fs = false := hfalse EntityKind.workflowState (by decide)
      have hf5 : isProjectRecord fs = false := hfalse EntityKind.project (by decide)
      have hf6 : isIssueContentRecord fs = false := hfalse EntityKind.issueContent (by decide)
      have hf7 : isLabelRecord fs = false := hfalse EntityKind.label (by decide)
      have hf8 : isInitiativeRecord fs = false := hfalse EntityKind.initiative (by decide)
      have hf9 : isProjectStatusRecord fs = false := hfalse EntityKind.projectStatus (by decide)
      have hf10 : isCycleRecord fs = false := hfalse EntityKind.cycle (by decide)
      have hf11 : isDocumentRecord fs = false := hfalse EntityKind.document (by decide)
      have hf12 : isDocumentContentRecord fs = false := hfalse EntityKind.documentContent (by decide)
      have hf13 : isMilestoneRecord fs = false := hfalse EntityKind.milestone (by decide)
      have hf14 : isProjectUpdateRecord fs = false := hfalse EntityKind.projectUpdate (by decide)
      simp [detClassify, claimClassify, claimKind, kindPriority, kindMatches, List.find?, ht, hf0, hf1, hf2, hf3, hf5, hf6, hf7, hf8, hf9, hf10, hf11, hf12, hf13, hf14]
    | project =>
      have ht : isProjectRecord fs = true := htrue
      have hf0 : isIssueRecord fs = false := hfalse EntityKind.issue (by decide)
      have hf1 : isTeamRecord fs = false := hfalse EntityKind.team (by decide)
      have hf2 : isUserRecord fs = false := hfalse EntityKind.user (by decide)
      have hf3 : isWorkflowStateRecord fs = false := hfalse EntityKind.workflowState (by decide)
      have hf4 : isCommentRecord fs = false := hfalse EntityKind.comment (by decide)
      have hf6 : isIssueContentRecord fs = false := hfalse EntityKind.issueContent (by decide)
      have hf7 : isLabelRecord fs = false := hfalse EntityKind.label (by decide)
      have hf8 : isInitiativeRecord fs = false := hfalse EntityKind.initiative (by decide)
      have hf9 : isProjectStatusRecord fs = false := hfalse EntityKind.projectStatus (by decide)
      have hf10 : isCycleRecord fs = false := hfalse EntityKind.cycle (by decide)
      have hf11 : isDocumentRecord fs = false := hfalse EntityKind.document (by decide)
      have hf12 : isDocumentContentRecord fs = false := hfalse EntityKind.documentContent (by decide)
      have hf13 : isMilestoneRecord fs = false := hfalse EntityKind.milestone (by decide)
      have hf14 : isProjectUpdateRecord fs = false := hfalse EntityKind.projectUpdate (by decide)
      simp [detClassify, claimClassify, claimKind, kindPriority, kindMatches, List.find?, ht, hf0, hf1, hf2, hf3, hf4, hf6, hf7, hf8, hf9, hf10, hf11, hf12, hf13, hf14]
    | issueContent =>
      have ht : isIssueContentRecord fs = true := htrue
      have hf0 : isIssueRecord fs = false := hfalse EntityKind.issue (by decide)
      have hf1 : isTeamRecord fs = false := hfalse EntityKind.team (by decide)
      have hf2 : isUserRecord fs = false := hfalse EntityKind.user (by decide)
      have hf3 : isWorkflowStateRecord fs = false := hfalse EntityKind.workflowState (by decide)
      have hf4 : isCommentRecord fs = false := hfalse EntityKind.comment (by decide)
      have hf5 : isProjectRecord fs = false := hfalse EntityKind.project (by decide)
      have hf7 : isLabelRecord fs = false := hfalse EntityKind.label (by decide)
      have hf8 : isInitiativeRecord fs = false := hfalse EntityKind.initiative (by decide)
      have hf9 : isProjectStatusRecord fs = false := hfalse EntityKind.projectStatus (by decide)
      have hf10 : isCycleRecord fs = false := hfalse EntityKind.cycle (by decide)
      have hf11 : isDocumentRecord fs = false := hfalse EntityKind.document (by decide)
      have hf12 : isDocumentContentRecord fs = false := hfalse EntityKind.documentContent (by decide)
      have hf13 : isMilestoneRecord fs = false := hfalse EntityKind.milestone (by decide)
      have hf14 : isProjectUpdateRecord fs = false := hfalse EntityKind.projectUpdate (by decide)
      simp [detClassify, claimClassify, claimKind, kindPriority, kindMatches, List.find?, ht, hf0, hf1, hf2, hf3, hf4, hf5, hf7, hf8, hf9, hf10, hf11, hf12, hf13, hf14]
    | label =>
      have ht : isLabelRecord fs = true := htrue
      have hf0 : isIssueRecord fs = false := hfalse EntityKind.issue (by decide)
      have hf1 : isTeamRecord fs = false := hfalse EntityKind.team (by decide)
      have hf2 : isUserRecord fs = false := hfalse EntityKind.user (by decide)
      have hf3 : isWorkflowStateRecord fs = false := hfalse EntityKind.workflowState (by decide)
      have hf4 : isCommentRecord fs = false := hfalse EntityKind.comment (by decide)
      have hf5 : isProjectRecord fs = false := hfalse EntityKind.project (by decide)
      have hf6 : isIssueContentRecord fs = false := hfalse EntityKind.issueContent (by decide)
      have hf8 : isInitiativeRecord fs = false := hfalse EntityKind.initiative (by decide)
      have hf9 : isProjectStatusRecord fs = false := hfalse EntityKind.projectStatus (by decide)
      have hf10 : isCycleRecord fs = false := hfalse EntityKind.cycle (by decide)
      have hf11 : isDocumentRecord fs = false := hfalse EntityKind.document (by decide)
      have hf12 : isDocumentContentRecord fs = false := hfalse EntityKind.documentContent (by decide)
      have hf13 : isMilestoneRecord fs = false := hfalse EntityKind.milestone (by decide)
      have hf14 : isProjectUpdateRecord fs = false := hfalse EntityKind.projectUpdate (by decide)
      simp [detClassify, claimClassify, claimKind, kindPriority, kindMatches, List.find?, ht, hf0, hf1, hf2, hf3, hf4, hf5, hf6, hf8, hf9, hf10, hf11, hf12, hf13, hf14]
    | initiative =>
      have ht : isInitiativeRecord fs = true := htrue
      have hf0 : isIssueRecord fs = false := hfalse EntityKind.issue (by decide)
      have hf1 : isTeamRecord fs = false := hfalse EntityKind.team (by decide)
      have hf2 : isUserRecord fs = false := hfalse EntityKind.user (by decide)
      have hf3 : isWorkflowStateRecord fs = false := hfalse EntityKind.workflowState (by decide)
      have hf4 : isCommentRecord fs = false := hfalse EntityKind.comment (by decide)
      have hf5 : isProjectRecord fs = false := hfalse EntityKind.project (by decide)
      have hf6 : isIssueContentRecord fs = false := hfalse EntityKind.issueContent (by decide)
      have hf7 : isLabelRecord fs = false := hfalse EntityKind.label (by decide)
      have hf9 : isProjectStatusRecord fs = false := hfalse EntityKind.projectStatus (by decide)
      have hf10 : isCycleRecord fs = false := hfalse EntityKind.cycle (by decide)
      have hf11 : isDocumentRecord fs = false := hfalse EntityKind.document (by decide)
      have hf12 : isDocumentContentRecord fs = false := hfalse EntityKind.documentContent (by decide)
      have hf13 : isMilestoneRecord fs = false := hfalse EntityKind.milestone (by decide)
      have hf14 : isProjectUpdateRecord fs = false := hfalse EntityKind.projectUpdate (by decide)
      simp [detClassify, claimClassify, claimKind, kindPriority, kindMatches, List.find?, ht, hf0, hf1, hf2, hf3, hf4, hf5, hf6, hf7, hf9, hf10, hf11, hf12, hf13, hf14]
    | projectStatus =>
      have ht : isProjectStatusRecord fs = true := htrue
      have hf0 : isIssueRecord fs = false := hfalse EntityKind.issue (by decide)
      have hf1 : isTeamRecord fs = false := hfalse EntityKind.team (by decide)
      have hf2 : isUserRecord fs = false := hfalse EntityKind.user (by decide)
      have hf3 : isWorkflowStateRecord fs = false := hfalse EntityKind.workflowState (by decide)
      have hf4 : isCommentRecord fs = false := hfalse EntityKind.comment (by decide)
      have hf5 : isProjectRecord fs = false := hfalse EntityKind.project (by decide)
      have hf6 : isIssueContentRecord fs = false := hfalse EntityKind.issueContent (by decide)
      have hf7 : isLabelRecord fs = false := hfalse EntityKind.label (by decide)
      have hf8 : isInitiativeRecord fs = false := hfalse EntityKind.initiative (by decide)
      have hf10 : isCycleRecord fs = false := hfalse EntityKind.cycle (by decide)
      have hf11 : isDocumentRecord fs = false := hfalse EntityKind.document (by decide)
      have hf12 : isDocumentContentRecord fs = false := hfalse EntityKind.documentContent (by decide)
      have hf13 : isMilestoneRecord fs = false := hfalse EntityKind.milestone (by decide)
      have hf14 : isProjectUpdateRecord fs = false := hfalse EntityKind.projectUpdate (by decide)
      simp [detClassify, claimClassify, claimKind, kindPriority, kindMatches, List.find?, ht, hf0, hf1, hf2, hf3, hf4, hf5, hf6, hf7, hf8, hf10, hf11, hf12, hf13, hf14]
    | cycle =>
      have ht : isCycleRecord fs = true := htrue
      have hf0 : isIssueRecord fs = false := hfalse EntityKind.issue (by decide)
      have hf1 : isTeamRecord fs = false := hfalse EntityKind.team (by decide)
      have hf2 : isUserRecord fs = false := hfalse EntityKind.user (by decide)
      have hf3 : isWorkflowStateRecord fs = false := hfalse EntityKind.workflowState (by decide)
      have hf4 : isCommentRecord fs = false := hfalse EntityKind.comment (by decide)
      have hf5 : isProjectRecord fs = false := hfalse EntityKind.project (by decide)
      have hf6 : isIssueContentRecord fs = false := hfalse EntityKind.issueContent (by decide)
      have hf7 : isLabelRecord fs = false := hfalse EntityKind.label (by decide)
      have hf8 : isInitiativeRecord fs = false := hfalse EntityKind.initiative (by decide)
      have hf9 : isProjectStatusRecord fs = false := hfalse EntityKind.projectStatus (by decide)
      have hf11 : isDocumentRecord fs = false := hfalse EntityKind.document (by decide)
      have hf12 : isDocumentContentRecord fs = false := hfalse EntityKind.documentContent (by decide)
      have hf13 : isMilestoneRecord fs = false := hfalse EntityKind.milestone (by decide)
      have hf14 : isProjectUpdateRecord fs = false := hfalse EntityKind.projectUpdate (by decide)
      simp [detClassify, claimClassify, claimKind, kindPriority, kindMatches, List.find?, ht, hf0, hf1, hf2, hf3, hf4, hf5, hf6, hf7, hf8, hf9, hf11, hf12, hf13, hf14]
    | document =>
      have ht : isDocumentRecord fs = true := htrue
      have hf0 : isIssueRecord fs = false := hfalse EntityKind.issue (by decide)
      have hf1 : isTeamRecord fs = false := hfalse EntityKind.team (by decide)
      have hf2 : isUserRecord fs = false := hfalse EntityKind.user (by decide)
      have hf3 : isWorkflowStateRecord fs = false := hfalse EntityKind.workflowState (by decide)
      have hf4 : isCommentRecord fs = false := hfalse EntityKind.comment (by decide)
      have hf5 : isProjectRecord fs = false := hfalse EntityKind.project (by decide)
      have hf6 : isIssueContentRecord fs = false := hfalse EntityKind.issueContent (by decide)
      have hf7 : isLabelRecord fs = false := hfalse EntityKind.label (by decide)
      have hf8 : isInitiativeRecord fs = false := hfalse EntityKind.initiative (by decide)
      have hf9 : isProjectStatusRecord fs = false := hfalse EntityKind.projectStatus (by decide)
      have hf10 : isCycleRecord fs = false := hfalse EntityKind.cycle (by decide)
      have hf12 : isDocumentContentRecord fs = false := hfalse EntityKind.documentContent (by decide)
      have hf13 : isMilestoneRecord fs = false := hfalse EntityKind.milestone (by decide)
      have hf14 : isProjectUpdateRecord fs = false := hfalse EntityKind.projectUpdate (by decide)
      simp [detClassify, claimClassify, claimKind, kindPriority, kindMatches, List.find?, ht, hf0, hf1, hf2, hf3, hf4, hf5, hf6, hf7, hf8, hf9, hf10, hf12, hf13, hf14]
    | documentContent =>
      have ht : isDocumentContentRecord fs = true := htrue
      have hf0 : isIssueRecord fs = false := hfalse EntityKind.issue (by decide)
      have hf1 : isTeamRecord fs = false := hfalse EntityKind.team (by decide)
      have hf2 : isUserRecord fs = false := hfalse EntityKind.user (by decide)
      have hf3 : isWorkflowStateRecord fs = false := hfalse EntityKind.workflowState (by decide)
      have hf4 : isCommentRecord fs = false := hfalse EntityKind.comment (by decide)
      have hf5 : isProjectRecord fs = false := hfalse EntityKind.project (by decide)
      have hf6 : isIssueContentRecord fs = false := hfalse EntityKind.issueContent (by decide)
      have hf7 : isLabelRecord fs = false := hfalse EntityKind.label (by decide)
      have hf8 : isInitiativeRecord fs = false := hfalse EntityKind.initiative (by decide)
      have hf9 : isProjectStatusRecord fs = false := hfalse EntityKind.projectStatus (by decide)
      have hf10 : isCycleRecord fs = false := hfalse EntityKind.cycle (by decide)
      have hf11 : isDocumentRecord fs = false := hfalse EntityKind.document (by decide)
      have hf13 : isMilestoneRecord fs = false := hfalse EntityKind.milestone (by decide)
      have hf14 : isProjectUpdateRecord fs = false := hfalse EntityKind.projectUpdate (by decide)
      simp [detClassify, claimClassify, claimKind, kindPriority, kindMatches, List.find?, ht, hf0, hf1, hf2, hf3, hf4, hf5, hf6, hf7, hf8, hf9, hf10, hf11, hf13, hf14]
    | milestone =>
      have ht : isMilestoneRecord fs = true := htrue
      have hf0 : isIssueRecord fs = false := hfalse EntityKind.issue (by decide)
      have hf1 : isTeamRecord fs = false := hfalse EntityKind.team (by decide)
      have hf2 : isUserRecord fs = false := hfalse EntityKind.user (by decide)
      have hf3 : isWorkflowStateRecord fs = false := hfalse EntityKind.workflowState (by decide)
      have hf4 : isCommentRecord fs = false := hfalse EntityKind.comment (by decide)
      have hf5 : isProjectRecord fs = false := hfalse EntityKind.project (by decide)
      have hf6 : isIssueContentRecord fs = false := hfalse EntityKind.issueContent (by decide)
      have hf7 : isLabelRecord fs = false := hfalse EntityKind.label (by decide)
      have hf8 : isInitiativeRecord fs = false := hfalse EntityKind.initiative (by decide)
      have hf9 : isProjectStatusRecord fs = false := hfalse EntityKind.projectStatus (by decide)
      have hf10 : isCycleRecord fs = false := hfalse EntityKind.cycle (by decide)
      have hf11 : isDocumentRecord fs = false := hfalse EntityKind.document (by decide)
      have hf12 : isDocumentContentRecord fs = false := hfalse EntityKind.documentContent (by decide)
      have hf14 : isProjectUpdateRecord fs = false := hfalse EntityKind.projectUpdate (by decide)
      simp [detClassify, claimClassify, claimKind, kindPriority, kindMatches, List.find?, ht, hf0, hf1, hf2, hf3, hf4, hf5, hf6, hf7, hf8, hf9, hf10, hf11, hf12, hf14]
    | projectUpdate =>
      have ht : isProjectUpdateRecord fs = true := htrue
      have hf0 : isIssueRecord fs = false := hfalse EntityKind.issue (by decide)
      have hf1 : isTeamRecord fs = false := hfalse EntityKind.team (by decide)
      have hf2 : isUserRecord fs = false := hfalse EntityKind.user (by decide)
      have hf3 : isWorkflowStateRecord fs = false := hfalse EntityKind.workflowState (by decide)
      have hf4 : isCommentRecord fs = false := hfalse EntityKind.comment (by decide)
      have hf5 : isProjectRecord fs = false := hfalse EntityKind.project (by decide)
      have hf6 : isIssueContentRecord fs = false := hfalse EntityKind.issueContent (by decide)
      have hf7 : isLabelRecord fs = false := hfalse EntityKind.label (by decide)
      have hf8 : isInitiativeRecord fs = false := hfalse EntityKind.initiative (by decide)
      have hf9 : isProjectStatusRecord fs = false := hfalse EntityKind.projectStatus (by decide)
      have hf10 : isCycleRecord fs = false := hfalse EntityKind.cycle (by decide)
      have hf11 : isDocumentRecord fs = false := hfalse EntityKind.document (by decide)
      have hf12 : isDocumentContentRecord fs = false := hfalse EntityKind.documentContent (by decide)
      have hf13 : isMilestoneRecord fs = false := hfalse EntityKind.milestone (by decide)
      simp [detClassify, claimClassify, claimKind, kindPriority, kindMatches, List.find?, ht, hf0, hf1, hf2, hf3, hf4, hf5, hf6, hf7, hf8, hf9, hf10, hf11, hf12, hf13]
  · rw [hm] at h
    simp at h


lemma detectStep_eq_claimStep (r : DetectedStores) (s : DetStore)
    (h : ∀ fs, sampledRecord s = some fs → (matchingKinds fs).length ≤ 1) :
    detectStep r s = claimDetectStep r s := by
  unfold detectStep claimDetectStep
  by_cases hskip : detSkipName s.name
  · simp [hskip]
  · simp only [hskip, Bool.false_eq_true, if_false]
    rcases hname : s.name with _ | name
    · rfl
    · rcases hread : s.read with e | recs
      · rfl
      · rcases hhead : recs.head? with _ | v
        · simp [hhead]
        · rcases v with _ | b | n | st | xs | fs
          · simp [hhead]
          · simp [hhead]
          · simp [hhead]
          · simp [hhead]
          · simp [hhead]
          · simp only [hhead]
            exact detClassify_eq_claimClassify r name fs
              (h fs (by simp [sampledRecord, hread, hhead]))


lemma strStarts_strContains {hay needle : String}
    (h : strStarts hay needle = true) : strContains hay needle = true := by
  unfold strStarts at h
  unfold strContains listInfixOf
  cases hd : hay.data with
  | nil =>
    rw [hd] at h
    cases hn : needle.data with
    | nil => simp [List.isEmpty_iff, hn]
    | cons c t => rw [hn] at h; simp [List.isPrefixOf] at h
  | cons c t =>
    rw [hd] at h
    simp [h]

lemma listIsPrefixOf_refl (l : List Char) : l.isPrefixOf l = true := by
  induction l with
  | nil => rfl
  | cons c t ih => simp [List.isPrefixOf, ih]

lemma strContains_self (s : String) : strContains s s = true := by
  unfold strContains listInfixOf
  cases hd : s.data with
  | nil => simp [List.isEmpty_iff]
  | cons c t => simp [listIsPrefixOf_refl]

/-- `bestCandidate` accumulator invariant: the winner either is the
accumulator or splits the list, with everything before it scoring
strictly less and everything at or after scoring no more. -/
lemma foldl_pickBest_acc {α : Type} (l : List (Nat × α)) (b : Nat × α) :
    ∃ c, l.foldl pickBest (some b) = some c ∧
      (c = b ∨ ∃ l₁ l₂, l = l₁ ++ c :: l₂ ∧ b.1 < c.1 ∧ ∀ x ∈ l₁, x.1 < c.1) ∧
      b.1 ≤ c.1 ∧ ∀ x ∈ l, x.1 ≤ c.1 := by
  induction l generalizing b with
  | nil => exact ⟨b, rfl, Or.inl rfl, le_refl _, by simp⟩
  | cons x t ih =>
    by_cases hx : x.1 > b.1
    · have hstep : pickBest (some b) x = some x := by simp [pickBest, hx]
      rcases ih x with ⟨c, hc, hsplit, hbc, hall⟩
      refine ⟨c, ?_, ?_, ?_, ?_⟩
      · simp [List.foldl, hstep, hc]
      · rcases hsplit with rfl | ⟨l₁, l₂, rfl, hlt, hl₁⟩
        · exact Or.inr ⟨[], t, rfl, hx, by simp⟩
        · refine Or.inr ⟨x :: l₁, l₂, rfl, lt_trans hx hlt, ?_⟩
          intro y hy
          rcases List.mem_cons.mp hy with rfl | hy
          · exact hlt
          · exact hl₁ y hy
      · exact le_trans (le_of_lt hx) hbc
      · intro y hy
        rcases List.mem_cons.mp hy with rfl | hy
        · exact hbc
        · exact hall y hy
    · have hstep : pickBest (some b) x = some b := by simp [pickBest, hx]
      rcases ih b with ⟨c, hc, hsplit, hbc, hall⟩
      refine ⟨c, ?_, ?_, hbc, ?_⟩
      · simp [List.foldl, hstep, hc]
      · rcases hsplit with rfl | ⟨l₁, l₂, rfl, hlt, hl₁⟩
        · exact Or.inl rfl
        · refine Or.inr ⟨x :: l₁, l₂, rfl, hlt, ?_⟩
          intro y hy
          rcases List.mem_cons.mp hy with rfl | hy
          · exact lt_of_le_of_lt (not_lt.mp hx) hlt
          · exact hl₁ y hy
      · intro y hy
        rcases List.mem_cons.mp hy with rfl | hy
        · exact le_trans (not_lt.mp hx) hbc
        · exact hall y hy

/-- `bestCandidate` returns the first candidate of maximal score. -/
lemma bestCandidate_spec {α : Type} (l : List (Nat × α)) :
    (bestCandidate l = none → l = []) ∧
    (∀ c, bestCandidate l = some c →
      ∃ l₁ l₂, l = l₁ ++ c :: l₂ ∧ (∀ x ∈ l₁, x.1 < c.1) ∧ ∀ x ∈ l₂, x.1 ≤ c.1) := by
  cases l with
  | nil => exact ⟨fun _ => rfl, fun c hc => by simp [bestCandidate] at hc⟩
  | cons a t =>
    have hfold : bestCandidate (a :: t) = t.foldl pickBest (some a) := by
      simp [bestCandidate, List.foldl, pickBest]
    rcases foldl_pickBest_acc t a with ⟨c, hc, hsplit, hac, hall⟩
    constructor
    · intro hnone
      rw [hfold, hc] at hnone
      exact absurd hnone (by simp)
    · intro c' hc'
      rw [hfold, hc] at hc'
      injection hc' with h
      subst h
      rcases hsplit with rfl | ⟨l₁, l₂, rfl, hlt, hl₁⟩
      · exact ⟨[], t, rfl, by simp, hall⟩
      · refine ⟨a :: l₁, l₂, rfl, ?_, ?_⟩
        · intro y hy
          rcases List.mem_cons.mp hy with rfl | hy
          · exact hlt
          · exact hl₁ y hy
        · intro y hy
          exact hall y (by simp [hy])

lemma callTool_otherExc_first (pj : String → Option JValue) (now : Rat)
    (name : String) (m1 : String) (a2 : AttemptOutcome) (s : SessionState) :
    callTool pj now name (.raised (.otherExc m1)) a2 s =
      callToolLastAttempt pj now name a2
        (disconnectSession (recordFailure now (.otherExc m1) s))
        [.attemptStart, .recordFailure, .disconnect] := by
  simp [callTool, attemptBody, failAndDisconnect]

lemma lastAttempt_otherExc (pj : String → Option JValue) (now : Rat)
    (name : String) (m2 : String) (s : SessionState) (ev : List SmEvent) :
    callToolLastAttempt pj now name (.raised (.otherExc m2)) s ev =
      (.error ("official_unavailable",
         "official MCP call failed for tool \x27" ++ name ++ "\x27: " ++ m2),
       disconnectSession (recordFailure now (.otherExc m2) s),
       ev ++ [.attemptStart, .recordFailure, .disconnect], 2) := by
  simp [callToolLastAttempt, attemptBody, failAndDisconnect]

lemma lastAttempt_events (pj : String → Option JValue) (now : Rat)
    (name : String) (a2 : AttemptOutcome) (s : SessionState)
    (ev : List SmEvent) :
    ∃ rest, (callToolLastAttempt pj now name a2 s ev).2.2.1
      = ev ++ (.attemptStart :: rest) := by
  unfold callToolLastAttempt
  rcases h2 : attemptBody pj a2 s with ⟨r2, s2, ev2⟩
  have hev2 : ∃ t, ev2 = .attemptStart :: t := by
    cases a2 with
    | raised e => simp [attemptBody] at h2; exact ⟨[], h2.2.2.symm⟩
    | result r =>
      rcases hn : normalizeResult pj r with e | v <;> simp [attemptBody, hn] at h2
      · exact ⟨[], h2.2.2.symm⟩
      · exact ⟨[.recordSuccess], h2.2.2.symm⟩
  rcases hev2 with ⟨t, ht⟩
  subst ht
  cases r2 with
  | ok v => simp
  | error e =>
    cases e with
    | toolError c m =>
      by_cases hc : c == "official_tool_error" <;> simp [hc, failAndDisconnect]
    | otherExc m => simp [failAndDisconnect]

lemma lastAttempt_attempts (pj : String → Option JValue) (now : Rat)
    (name : String) (a2 : AttemptOutcome) (s : SessionState)
    (ev : List SmEvent) :
    (callToolLastAttempt pj now name a2 s ev).2.2.2 = 2 := by
  unfold callToolLastAttempt
  rcases h2 : attemptBody pj a2 s with ⟨r2, s2, ev2⟩
  cases r2 with
  | ok v => simp
  | error e =>
    cases e with
    | toolError c m =>
      by_cases hc : c == "official_tool_error" <;> simp [hc, failAndDisconnect]
    | otherExc m => simp [failAndDisconnect]


/-! ## Claims -/

/-- Claim C1: the specification and the repository tests
(`tests/test_router_stale.py`) require `call_read` to decorate a
degraded-local fallback payload with `_metadata = {"stale": true}`, and
fresh or upstream responses to carry no `_metadata`.  Evaluating the
embedded `call_read` at the failing input of
`test_stale_fallback_has_metadata_when_remote_down` — degraded reader,
registered handler returning `c1Fields`, remote raising a non-semantic
`OfficialToolError` — the source returns the handler value unchanged,
without any `_metadata` key: the stale-marking step is missing from
`router.py`. -/
theorem c1_stale_metadata_missing :
    callRead 0 30 ("list_issues") c1Env ⟨0⟩ =
      (.value (.obj c1Fields), [.localTry false, .upstream, .localTry true], ⟨0⟩)
    ∧ jHasKey c1Fields ("_metadata") = false := by
  exact ⟨rfl, rfl⟩

/-- Claim C2: an upstream result with `isError` makes `call_tool` raise
`OfficialToolError("official_tool_error", ...)` with no retry, no failure
record and no session teardown; and `call_read` re-raises a semantic
`OfficialToolError` immediately on both the remote-first path and the
pure-local-fallback path, never serving a local fallback for it. -/
theorem c2_semantic_errors_never_masked :
    (∀ (pj : String → Option JValue) (now : Rat) (name : String) (r : McpResult)
       (a2 : AttemptOutcome) (s : SessionState),
       r.isError = true →
       callTool pj now name (.result r) a2 s =
         (.error ("official_tool_error", semanticMsg r),
          { s with connected := true }, [.attemptStart], 1))
    ∧
    (∀ (now window : Rat) (name : String) (env : ReadEnv) (st : RouterState) (m : String),
       env.upstream1 = .err ("official_tool_error") m →
       readRemoteFirst now st = true →
       callRead now window name env st =
         (.toolError ("official_tool_error") m, [.upstream], st))
    ∧
    (∀ (now window : Rat) (name : String) (env : ReadEnv) (st : RouterState)
       (m lc lm : String),
       readRemoteFirst now st = false →
       callLocal env name false = .error (.fallback lc lm) →
       env.upstream2 = .err ("official_tool_error") m →
       callRead now window name env st =
         (.toolError ("official_tool_error") m, [.localTry false, .upstream], st)) := by
  refine ⟨?_, ?_, ?_⟩
  · intro pj now name r a2 s hr
    simp [callTool, attemptBody, normalizeResult, hr, semanticMsg]
  · intro now window name env st m h1 h2
    simp [callRead, h2, callOfficial, h1]
  · intro now window name env st m lc lm h1 h2 h3
    simp [callRead, h1, h2, callOfficial, h3]

/-- Claim C2 witness: the three parts at concrete inputs — a result
object with `isError` and text "bad filter"; a remote-first read whose
upstream raises the semantic error; and a pure-local read whose
fallback upstream raises the semantic error. -/
theorem c2_witness :
    callTool (fun _ => none) 0 ("list_issues")
        (.result ⟨true, none, [⟨"text", "bad filter"⟩], none⟩)
        (.raised (.otherExc ("x"))) ⟨0, none, none, false⟩ =
      (.error ("official_tool_error", "bad filter"),
       ⟨0, none, none, true⟩, [.attemptStart], 1) ∧
    callRead 5 30 ("list_issues")
        ⟨true, false, .ok .null, .err ("official_tool_error") ("bad filter"),
         .ok .null⟩ ⟨10⟩ =
      (.toolError ("official_tool_error") ("bad filter"), [.upstream], ⟨10⟩) ∧
    callRead 50 30 ("get_cycle")
        ⟨false, false, .ok .null, .ok .null,
         .err ("official_tool_error") ("bad filter")⟩ ⟨10⟩ =
      (.toolError ("official_tool_error") ("bad filter"),
       [.localTry false, .upstream], ⟨10⟩) := by
  refine ⟨?_, ?_, ?_⟩
  · exact c2_semantic_errors_never_masked.1 (fun _ => none) 0 ("list_issues")
      ⟨true, none, [⟨"text", "bad filter"⟩], none⟩ (.raised (.otherExc ("x")))
      ⟨0, none, none, false⟩ rfl
  · exact c2_semantic_errors_never_masked.2.1 5 30 ("list_issues") _ ⟨10⟩
      ("bad filter") rfl (by decide)
  · exact c2_semantic_errors_never_masked.2.2 50 30 ("get_cycle") _ ⟨10⟩
      ("bad filter") ("unsupported_tool")
      ("tool \x27get_cycle\x27 not implemented in local cache")
      (by decide) rfl rfl

/-- Claim C3: a successful `call_official` with a write-named tool that
is not a registered read handler sets the coherence deadline to
`now + coherence_window`; while the current time is below the deadline
every `call_read` attempts the upstream first, and from the deadline on
it attempts the local handler first again. -/
theorem c3_write_coherence_window :
    ∀ (now window : Rat) (name : String) (st : RouterState) (v : JValue),
      isProbableWriteTool false name = true →
      (callOfficial now window name false (.ok v) st).1 = .ok v ∧
      ((callOfficial now window name false (.ok v) st).2).remoteReadsUntil
        = now + window ∧
      (∀ (t window2 : Rat) (rname : String) (env : ReadEnv),
        t < now + window →
        ((callRead t window2 rname env
            (callOfficial now window name false (.ok v) st).2).2.1).head?
          = some .upstream) ∧
      (∀ (t window2 : Rat) (rname : String) (env : ReadEnv),
        now + window ≤ t →
        ((callRead t window2 rname env
            (callOfficial now window name false (.ok v) st).2).2.1).head?
          = some (.localTry false)) := by
  intro now window name st v hw
  have hst : (callOfficial now window name false (.ok v) st).2
      = { st with remoteReadsUntil := now + window } := by
    simp [callOfficial, hw, markRecentWrite]
  refine ⟨by simp [callOfficial], by rw [hst], ?_, ?_⟩
  · intro t window2 rname env ht
    rw [hst]
    have hrf : readRemoteFirst t { st with remoteReadsUntil := now + window } = true := by
      simp [readRemoteFirst, ht]
    unfold callRead
    rw [if_pos (by simp [hrf])]
    rcases h1 : callOfficial t window2 rname env.registered env.upstream1
        { st with remoteReadsUntil := now + window } with ⟨r1, st1⟩
    cases r1 with
    | ok v1 => rfl
    | error e =>
      rcases e with ⟨c, m⟩
      by_cases hc : c == "official_tool_error"
      · simp [hc]
      · simp only [hc]
        cases hl : callLocal env rname false with
        | ok v2 => simp
        | error le =>
          cases le with
          | fallback lc lm => by_cases hlc : lc == "degraded_local" <;> simp [hlc]
          | exn m2 =>
            cases h2 : callOfficial t window2 rname env.registered env.upstream2 st1 with
            | mk r2 st2 => cases r2 <;> simp
  · intro t window2 rname env ht
    rw [hst]
    have hrf : readRemoteFirst t { st with remoteReadsUntil := now + window } = false := by
      simp [readRemoteFirst]
      linarith
    unfold callRead
    rw [if_neg (by simp [hrf])]
    cases hl : callLocal env rname false with
    | ok v2 => simp
    | error le =>
      cases le with
      | fallback lc lm =>
        cases h2 : callOfficial t window2 rname env.registered env.upstream2
            { st with remoteReadsUntil := now + window } with
        | mk r2 st2 =>
          cases r2 with
          | ok v3 => simp
          | error e =>
            rcases e with ⟨c2, m2⟩
            by_cases hc : c2 == "official_tool_error"
            · simp [hc]
            · by_cases hlc : lc == "degraded_local" <;> simp [hc, hlc]
      | exn m2 =>
        cases h2 : callOfficial t window2 rname env.registered env.upstream2
            { st with remoteReadsUntil := now + window } with
        | mk r2 st2 => cases r2 <;> simp

/-- Claim C3 witness: `create_issue` at time 0 with a 30 second window;
a read at time 10 goes upstream first, a read at time 30 goes local
first. -/
theorem c3_witness :
    (callOfficial 0 30 ("create_issue") false (.ok .null) ⟨0⟩).1 = .ok .null ∧
    ((callOfficial 0 30 ("create_issue") false (.ok .null) ⟨0⟩).2).remoteReadsUntil
      = 0 + 30 ∧
    ((callRead 10 30 ("list_issues")
        ⟨true, false, .ok .null, .ok .null, .ok .null⟩
        (callOfficial 0 30 ("create_issue") false (.ok .null) ⟨0⟩).2).2.1).head?
      = some .upstream ∧
    ((callRead 30 30 ("list_issues")
        ⟨true, false, .ok .null, .ok .null, .ok .null⟩
        (callOfficial 0 30 ("create_issue") false (.ok .null) ⟨0⟩).2).2.1).head?
      = some (.localTry false) := by
  rcases c3_write_coherence_window 0 30 ("create_issue") ⟨0⟩ .null (by decide)
    with ⟨h1, h2, h3, h4⟩
  exact ⟨h1, h2,
    h3 10 30 ("list_issues") ⟨true, false, .ok .null, .ok .null, .ok .null⟩ (by norm_num),
    h4 30 30 ("list_issues") ⟨true, false, .ok .null, .ok .null, .ok .null⟩ (by norm_num)⟩


/-- Claim C4: every `call_tool` invocation makes at most two attempts;
a non-semantic exception on the first attempt records the failure,
tears down the session and retries exactly once; a non-semantic
exception on the second attempt is raised as
`OfficialToolError("official_unavailable", ...)`. -/
theorem c4_retry_once :
    ∀ (pj : String → Option JValue) (now : Rat) (name : String)
      (a1 a2 : AttemptOutcome) (s : SessionState),
      (callTool pj now name a1 a2 s).2.2.2 ≤ 2 ∧
      (∀ m1, a1 = .raised (.otherExc m1) →
        (callTool pj now name a1 a2 s).2.2.2 = 2 ∧
        ((callTool pj now name a1 a2 s).2.2.1).take 4
          = [.attemptStart, .recordFailure, .disconnect, .attemptStart] ∧
        (∀ m2, a2 = .raised (.otherExc m2) →
          (callTool pj now name a1 a2 s).1 =
            .error ("official_unavailable",
              "official MCP call failed for tool \x27" ++ name ++ "\x27: " ++ m2) ∧
          ((callTool pj now name a1 a2 s).2.1).failureCount = s.failureCount + 2 ∧
          ((callTool pj now name a1 a2 s).2.1).connected = false)) := by
  intro pj now name a1 a2 s
  constructor
  · unfold callTool
    rcases h1 : attemptBody pj a1 s with ⟨r1, s1, ev1⟩
    cases r1 with
    | ok v => simp
    | error e =>
      cases e with
      | toolError c m =>
        by_cases hc : c == "official_tool_error"
        · simp [hc]
        · simp only [hc, Bool.false_eq_true, if_false]
          exact le_of_eq (lastAttempt_attempts pj now name a2 _ _)
      | otherExc m =>
        exact le_of_eq (lastAttempt_attempts pj now name a2 _ _)
  · intro m1 h1
    subst h1
    rw [callTool_otherExc_first]
    refine ⟨lastAttempt_attempts pj now name a2 _ _, ?_, ?_⟩
    · rcases lastAttempt_events pj now name a2
        (disconnectSession (recordFailure now (.otherExc m1) s))
        [.attemptStart, .recordFailure, .disconnect] with ⟨rest, hrest⟩
      rw [hrest]
      simp [List.take]
    · intro m2 h2
      subst h2
      rw [lastAttempt_otherExc]
      refine ⟨rfl, ?_, rfl⟩
      simp [disconnectSession, recordFailure]

/-- Claim C4 witness: two transport failures in a row at a concrete
session state. -/
theorem c4_witness :
    (callTool (fun _ => none) 0 ("list_issues") (.raised (.otherExc ("boom1")))
        (.raised (.otherExc ("boom2"))) ⟨0, none, none, false⟩).2.2.2 = 2 ∧
    ((callTool (fun _ => none) 0 ("list_issues") (.raised (.otherExc ("boom1")))
        (.raised (.otherExc ("boom2"))) ⟨0, none, none, false⟩).2.2.1).take 4
      = [.attemptStart, .recordFailure, .disconnect, .attemptStart] ∧
    (callTool (fun _ => none) 0 ("list_issues") (.raised (.otherExc ("boom1")))
        (.raised (.otherExc ("boom2"))) ⟨0, none, none, false⟩).1 =
      .error ("official_unavailable",
        "official MCP call failed for tool \x27list_issues\x27: boom2") ∧
    ((callTool (fun _ => none) 0 ("list_issues") (.raised (.otherExc ("boom1")))
        (.raised (.otherExc ("boom2"))) ⟨0, none, none, false⟩).2.1).failureCount = 2 ∧
    ((callTool (fun _ => none) 0 ("list_issues") (.raised (.otherExc ("boom1")))
        (.raised (.otherExc ("boom2"))) ⟨0, none, none, false⟩).2.1).connected = false := by
  rcases c4_retry_once (fun _ => none) 0 ("list_issues")
    (.raised (.otherExc ("boom1"))) (.raised (.otherExc ("boom2")))
    ⟨0, none, none, false⟩ with ⟨_, hrest⟩
  rcases hrest ("boom1") rfl with ⟨ha, hb, hc⟩
  rcases hc ("boom2") rfl with ⟨hc1, hc2, hc3⟩
  exact ⟨ha, hb, hc1, hc2, hc3⟩

/-- Claim C5: with account scoping active, an empty derived
allowed-account-id set or allowed-organization-id set makes the reload
raise a hard `ValueError` instead of installing an unfiltered snapshot;
the previous snapshot stays installed and health turns degraded with the
failure reason. -/
theorem c5_scope_empty_hard_failure :
    ∀ (cfg : ReaderCfg) (codecs : TextCodecs) (dbs : List LoadDb) (now : Rat)
      (s : ReaderState),
      scopeEnabled cfg = true →
      ((allowedAccountIds cfg
          (loadAllDbs codecs cfg.loadDocumentContent dbs now).1).isEmpty = true →
        reloadCache cfg codecs (.ok dbs) now s =
          ({ s with health := setDegraded now scopeAccountMsg s.health },
           .error scopeAccountMsg)) ∧
      ((allowedAccountIds cfg
          (loadAllDbs codecs cfg.loadDocumentContent dbs now).1).isEmpty = false →
       (allowedOrgIds
          (allowedAccountIds cfg (loadAllDbs codecs cfg.loadDocumentContent dbs now).1)
          (loadAllDbs codecs cfg.loadDocumentContent dbs now).1).isEmpty = true →
        reloadCache cfg codecs (.ok dbs) now s =
          ({ s with health := setDegraded now scopeOrgMsg s.health },
           .error scopeOrgMsg)) ∧
      (∀ msg, (reloadCache cfg codecs (.ok dbs) now s).2 = .error msg →
        (reloadCache cfg codecs (.ok dbs) now s).1.cache = s.cache ∧
        (reloadCache cfg codecs (.ok dbs) now s).1.health.degraded = true ∧
        (reloadCache cfg codecs (.ok dbs) now s).1.health.reason = some msg) := by
  intro cfg codecs dbs now s hscope
  refine ⟨?_, ?_, ?_⟩
  · intro hempty
    simp [reloadCache, applyAccountScope, hscope, hempty, scopeAccountMsg]
  · intro hne horg
    simp [reloadCache, applyAccountScope, hscope, hne, horg, scopeOrgMsg]
  · intro msg herr
    unfold reloadCache at herr ⊢
    rcases hsc : applyAccountScope cfg (loadAllDbs codecs cfg.loadDocumentContent dbs now).1
      with e | c2
    · simp [hsc] at herr ⊢
      subst herr
      simp [setDegraded]
    · simp [hsc] at herr

/-- Claim C5 witness: scoping by an email no user has, against one empty
database (scenario S8). -/
theorem c5_witness :
    scopeEnabled ⟨["nobody@example.com"], [], false, 60⟩ = true ∧
    (allowedAccountIds ⟨["nobody@example.com"], [], false, 60⟩
      (loadAllDbs ⟨fun _ => "", fun _ => ""⟩ false [LoadDb.empty] 5).1).isEmpty = true ∧
    reloadCache ⟨["nobody@example.com"], [], false, 60⟩ ⟨fun _ => "", fun _ => ""⟩
        (.ok [LoadDb.empty]) 5 ReaderState.init =
      ({ ReaderState.init with
          health := setDegraded 5 scopeAccountMsg ReaderState.init.health },
       .error scopeAccountMsg) := by
  refine ⟨by decide, by decide, ?_⟩
  exact (c5_scope_empty_hard_failure ⟨["nobody@example.com"], [], false, 60⟩
    ⟨fun _ => "", fun _ => ""⟩ [LoadDb.empty] 5 ReaderState.init (by decide)).1
    (by decide)

/-- Claim C6: two consecutive `ensure_fresh` calls whose gap reaches the
idle threshold (equality counts) mark the cache stale, so the next cache
access triggers a full reload; the first-ever call never forces a
reload. -/
theorem c6_idle_refresh :
    ∀ (cfg : ReaderCfg) (codecs : TextCodecs)
      (openResult : Except String (List LoadDb)) (t1 t2 : Rat)
      (s0 : ReaderState),
      s0.lastToolCallAt = 0 →
      (ensureFresh cfg t1 s0).forceNextRefresh = s0.forceNextRefresh ∧
      (0 < t1 → cfg.idleRefreshThreshold ≤ t2 - t1 →
        (ensureFresh cfg t2 (ensureFresh cfg t1 s0)).forceNextRefresh = true ∧
        ∀ now, (ensureCache cfg codecs openResult now
            (ensureFresh cfg t2 (ensureFresh cfg t1 s0))).2.2 = true) := by
  intro cfg codecs openResult t1 t2 s0 h0
  have hfst : ensureFresh cfg t1 s0 = { s0 with lastToolCallAt := t1 } := by
    simp [ensureFresh, h0]
  constructor
  · rw [hfst]
  · intro ht1 hgap
    have hne : (t1 == (0 : Rat)) = false := by
      simp only [beq_eq_false_iff_ne, ne_eq]
      exact fun h => absurd h (ne_of_gt ht1)
    have hsnd : (ensureFresh cfg t2 (ensureFresh cfg t1 s0)).forceNextRefresh = true := by
      rw [hfst]
      simp [ensureFresh, hne, hgap]
    refine ⟨hsnd, fun now => ?_⟩
    simp [ensureCache, ensureCacheReloads, hsnd]

/-- Claim C6 witness: calls at times 10 and 70 with the default
60 second threshold (the gap equals the threshold). -/
theorem c6_witness :
    ReaderState.init.lastToolCallAt = 0 ∧
    (ensureFresh c7Cfg 10 ReaderState.init).forceNextRefresh
      = ReaderState.init.forceNextRefresh ∧
    (ensureFresh c7Cfg 70 (ensureFresh c7Cfg 10 ReaderState.init)).forceNextRefresh
      = true ∧
    (ensureCache c7Cfg c7Codecs (.error ("no db")) 71
        (ensureFresh c7Cfg 70 (ensureFresh c7Cfg 10 ReaderState.init))).2.2 = true := by
  rcases c6_idle_refresh c7Cfg c7Codecs (.error ("no db")) 10 70 ReaderState.init rfl
    with ⟨h1, h2⟩
  rcases h2 (by norm_num) (by norm_num [c7Cfg]) with ⟨h3, h4⟩
  exact ⟨rfl, h1, h3, h4 71⟩


/-- Claim C7 counterexample: with two Linear databases, an issue loaded
from the first database whose team only appears in the second database
is retained with identifier `???-1` even though the team (key `ABC`) is
in the final snapshot — the claim would require `ABC-1`. -/
theorem c7_identifier_counterexample :
    SMap.get? ((reloadCache c7Cfg c7Codecs (.ok [c7Db1, c7Db2]) 100
        ReaderState.init).1.cache.teams) ("T") = some c7Team ∧
    (SMap.get? ((reloadCache c7Cfg c7Codecs (.ok [c7Db1, c7Db2]) 100
        ReaderState.init).1.cache.issues) ("i1")).map Issue.identifier
      = some ("???-1") ∧
    ("???-1" : String) ≠ pyShowOptStr c7Team.key ++ "-" ++ pyShowOptInt c7Issue.number := by
  refine ⟨by decide, by decide, by decide⟩

/-- Claim C7 (amended): the identifier is derived by the reader and never
taken from the raw record, and for a reload from a single database every
retained issue satisfies `identifier = f"{teams[teamId].key}-{number}"`
when its team is in the snapshot and `"???-{number}"` otherwise
(`issueTeamKey` is exactly that lookup); in a multi-database reload the
team must be loaded no later than the issue, else the identifier is
`"???-{number}"` even though the team is in the snapshot. -/
theorem c7_identifier_derived :
    (∀ (codecs : TextCodecs) (T : SMap TeamRec) (r : RawIssue) (x : Option String),
      mkIssue codecs T { r with identifier := x } = mkIssue codecs T r) ∧
    (∀ (cfg : ReaderCfg) (codecs : TextCodecs) (db : LoadDb) (now : Rat)
       (s : ReaderState) (issueId : String) (rec : Issue),
      (reloadCache cfg codecs (.ok [db]) now s).2 = .ok () →
      SMap.get? ((reloadCache cfg codecs (.ok [db]) now s).1.cache.issues) issueId
        = some rec →
      rec.identifier =
        issueTeamKey ((reloadCache cfg codecs (.ok [db]) now s).1.cache.teams)
          rec.teamId ++ "-" ++ pyShowOptInt rec.number) := by
  constructor
  · intro codecs T r x
    rfl
  · intro cfg codecs db now s issueId rec hok hget
    simp only [reloadCache] at hok hget ⊢
    rcases hsc : applyAccountScope cfg (loadAllDbs codecs cfg.loadDocumentContent [db] now).1
      with e | cache2
    · simp [hsc] at hok
    · simp only [hsc] at hget ⊢
      simp only [buildIssueIndexes_issues, resolveProjectStates_issues,
        buildIssueIndexes_teams, resolveProjectStates_teams] at hget ⊢
      rw [loadAllDbs_single] at hsc
      set c1 := loadFromDb codecs cfg.loadDocumentContent db (CachedData.init now) with hc1
      have hinv := loadFromDb_issue_invariant codecs cfg.loadDocumentContent db now
      have hnodup := loadFromDb_teams_nodup codecs cfg.loadDocumentContent db now
      rw [← hc1] at hinv hnodup
      by_cases hscope : scopeEnabled cfg
      · unfold applyAccountScope at hsc
        rw [if_neg (by simp [hscope])] at hsc
        by_cases hacc : (allowedAccountIds cfg c1).isEmpty
        · rw [if_pos hacc] at hsc
          cases hsc
        · rw [if_neg hacc] at hsc
          by_cases horg : (allowedOrgIds (allowedAccountIds cfg c1) c1).isEmpty
          · rw [if_pos horg] at hsc
            cases hsc
          · rw [if_neg horg] at hsc
            injection hsc with hsc2
            subst hsc2
            -- cache2 is now an explicit filtered record
            have hmem := SMap.get?_mem hget
            have hmem2 := List.mem_filter.mp hmem
            have hfilter : optMem rec.teamId
                (SMap.keysList (SMap.filterVals c1.teams (fun _ t =>
                  (allowedOrgIds (allowedAccountIds cfg c1) c1).contains
                    (pyTrim (pyToStr t.organizationId))))) = true := by
              simpa [SMap.filterVals, SMap.keysList] using hmem2.2
            have hbase := hinv (issueId, rec) hmem2.1
            rcases hteam : rec.teamId with _ | t
            · rw [hteam] at hbase
              rw [hbase]
              rfl
            · rw [hteam] at hfilter hbase
              simp only [optMem] at hfilter
              have hkeymem : t ∈ SMap.keysList (SMap.filterVals c1.teams (fun _ t =>
                  (allowedOrgIds (allowedAccountIds cfg c1) c1).contains
                    (pyTrim (pyToStr t.organizationId)))) := by
                simpa [SMap.keysList] using hfilter
              rcases SMap.get?_isSome_of_key_mem hkeymem with ⟨tm, htm⟩
              have htm1 : SMap.get? c1.teams t = some tm :=
                SMap.get?_filterVals_of_nodup hnodup htm
              rw [hbase]
              simp only [issueTeamKey, htm, htm1]
      · unfold applyAccountScope at hsc
        rw [if_pos (by simp [hscope])] at hsc
        injection hsc with hsc2
        subst hsc2
        exact hinv (issueId, rec) (SMap.get?_mem hget)



/-- Claim C7 witness: a single database holding team `ABC` and issue 1;
the retained issue has identifier `ABC-1`. -/
theorem c7_witness :
    (reloadCache c7Cfg c7Codecs (.ok [c7wDb]) 5 ReaderState.init).2 = .ok () ∧
    SMap.get? ((reloadCache c7Cfg c7Codecs (.ok [c7wDb]) 5
        ReaderState.init).1.cache.issues) ("i1") = some c7wRec ∧
    c7wRec.identifier =
      issueTeamKey ((reloadCache c7Cfg c7Codecs (.ok [c7wDb]) 5
          ReaderState.init).1.cache.teams) c7wRec.teamId
        ++ "-" ++ pyShowOptInt c7wRec.number := by
  refine ⟨rfl, rfl, ?_⟩
  exact c7_identifier_derived.2 c7Cfg c7Codecs c7wDb 5 ReaderState.init ("i1")
    c7wRec rfl rfl


/-- Claim C8 counterexample: in `find_user` a name-prefix match scores
100, not 70 — there is no separate exact-name tier — so the earlier
prefix-only candidate `alicette` beats the later exact-name candidate
`alice` for the search `alice`, contradicting both the stated score and
the stated consequence for `find_user`. -/
theorem c8_scoring_counterexample :
    findUser [c8UserPre, c8UserExact] ("alice") = some c8UserPre ∧
    c8UserPre ≠ c8UserExact ∧
    findUserScore ("alice") c8UserPre = some 100 ∧
    findUserScore ("alice") c8UserExact = some 100 ∧
    (100 : Nat) ≠ 70 := by
  refine ⟨by decide, by decide, by decide, by decide, by decide⟩

/-- Claim C8 (amended): `find_user` and `find_project` score
case-insensitively and the highest score wins with ties broken by
insertion order (`bestCandidate` picks the first maximal candidate); in
`find_project` a non-exact name-prefix match scores 80, strictly below
the exact-name score of 100, so a later exact-name project beats an
earlier prefix-only project; in `find_user` any name-prefix match —
exact or not — scores 100, so a later exact-name user never beats an
earlier prefix-only user. -/
theorem c8_find_scoring :
    (∀ (us : List UserRec) (ps : List ProjectRec) (q q' : String),
      pyLower q = pyLower q' →
      findUser us q = findUser us q' ∧ findProject ps q = findProject ps q') ∧
    (∀ (l : List (Nat × UserRec)) (c : Nat × UserRec), bestCandidate l = some c →
      ∃ l₁ l₂, l = l₁ ++ c :: l₂ ∧ (∀ x ∈ l₁, x.1 < c.1) ∧ ∀ x ∈ l₂, x.1 ≤ c.1) ∧
    (∀ (ql : String) (p : ProjectRec),
      (pyLower (pyToStr p.name) = ql → findProjectScore ql p = some 100) ∧
      (pyLower (pyToStr p.name) ≠ ql → strStarts (pyLower (pyToStr p.name)) ql = true →
        findProjectScore ql p = some 80)) ∧
    (80 : Nat) < 100 ∧
    (∀ (ql : String) (u : UserRec),
      strStarts (pyLower (pyToStr u.name)) ql = true →
      findUserScore ql u = some 100) ∧
    findProject [c8ProjPre, c8ProjExact] ("alpha") = some c8ProjExact := by
  refine ⟨?_, ?_, ?_, by decide, ?_, by decide⟩
  · intro us ps q q' hq
    unfold findUser findProject
    rw [hq]
    exact ⟨rfl, rfl⟩
  · intro l c hc
    exact (bestCandidate_spec l).2 c hc
  · intro ql p
    constructor
    · intro hx
      unfold findProjectScore
      rw [hx]
      simp [strContains_self]
    · intro hne hpre
      unfold findProjectScore
      have hb : (pyLower (pyToStr p.name) == ql) = false := by
        simp [hne]
      simp [strStarts_strContains hpre, hb, hpre]
  · intro ql u hpre
    unfold findUserScore
    simp [strStarts_strContains hpre, hpre]

/-- Claim C8 witness: the quantified parts at concrete inputs —
mixed-case search, a singleton candidate list, the exact and prefix
project scores, and the user prefix score. -/
theorem c8_witness :
    pyLower ("ALice") = pyLower ("alice") ∧
    findUser [c8UserPre] ("ALice") = findUser [c8UserPre] ("alice") ∧
    bestCandidate [((80 : Nat), c8UserPre), (80, c8UserExact)]
      = some (80, c8UserPre) ∧
    (∃ l₁ l₂, ([((80 : Nat), c8UserPre), (80, c8UserExact)] : List (Nat × UserRec))
        = l₁ ++ (80, c8UserPre) :: l₂ ∧
      (∀ x ∈ l₁, x.1 < 80) ∧ ∀ x ∈ l₂, x.1 ≤ 80) ∧
    findProjectScore ("alpha") c8ProjExact = some 100 ∧
    findProjectScore ("alpha") c8ProjPre = some 80 ∧
    findUserScore ("alic") c8UserPre = some 100 := by
  refine ⟨by decide, ?_, by decide, ?_, ?_, ?_, ?_⟩
  · exact (c8_find_scoring.1 [c8UserPre] [] ("ALice") ("alice") (by decide)).1
  · exact c8_find_scoring.2.1 [(80, c8UserPre), (80, c8UserExact)]
      (80, c8UserPre) (by decide)
  · exact (c8_find_scoring.2.2.1 ("alpha") c8ProjExact).1 (by decide)
  · exact (c8_find_scoring.2.2.1 ("alpha") c8ProjPre).2 (by decide) (by decide)
  · exact c8_find_scoring.2.2.2.2.1 ("alic") c8UserPre (by decide)


/-- Claim C9 counterexample: store B, whose first record matches the
issue predicate (the first matching predicate in priority order) as well
as the cycle predicate, is not dropped once the issue slot is taken by
store A — the code lets it fall through and the cycle predicate claims
it, so `detect_stores` differs from the algorithm the claim states. -/
theorem c9_detect_counterexample :
    (detectStores [c9StoreA, c9StoreB]).cycles = some ("storeB") ∧
    (claimDetectStores [c9StoreA, c9StoreB]).cycles = none ∧
    kindPriority.find? (fun k => kindMatches k c9RecBoth) = some .issue ∧
    isCycleRecord c9RecBoth = true ∧
    detectStores [c9StoreA, c9StoreB] ≠ claimDetectStores [c9StoreA, c9StoreB] := by
  refine ⟨by decide, by decide, by decide, by decide, by decide⟩

/-- Claim C9 (amended): `detect_stores` skips stores whose name begins
with an underscore or contains `_partial`, examines only the first
record of a store, skips stores whose read raises, and applies the
predicates in the fixed priority order — but the first matching
predicate claims the store only when its slot is still unclaimed; a
store matching an already-claimed singleton kind falls through to later
predicates instead of being dropped.  When every sampled record matches
at most one predicate the code coincides with the specified
first-matching-predicate algorithm. -/
theorem c9_detect_stores :
    (∀ (r : DetectedStores) (s : DetStore), detSkipName s.name = true →
      detectStep r s = r ∧ claimDetectStep r s = r) ∧
    (∀ (r : DetectedStores) (name : Option String) (recs : List JValue),
      detectStep r ⟨name, .ok recs⟩ = detectStep r ⟨name, .ok (recs.take 1)⟩) ∧
    (∀ (r : DetectedStores) (name : Option String),
      detectStep r ⟨name, .error ()⟩ = r) ∧
    (∀ (stores : List DetStore),
      (∀ s ∈ stores, ∀ fs, sampledRecord s = some fs →
        (matchingKinds fs).length ≤ 1) →
      detectStores stores = claimDetectStores stores) := by
  refine ⟨?_, ?_, ?_, ?_⟩
  · intro r s hskip
    constructor <;> simp [detectStep, claimDetectStep, hskip]
  · intro r name recs
    unfold detectStep
    by_cases hskip : detSkipName name
    · simp [hskip]
    · rcases name with _ | n
      · rfl
      · rcases recs with _ | ⟨v, t⟩ <;> rfl
  · intro r name
    unfold detectStep
    by_cases hskip : detSkipName name
    · simp [hskip]
    · rcases name with _ | n <;> simp [hskip]
  · intro stores
    unfold detectStores claimDetectStores
    generalize DetectedStores.init = r0
    induction stores generalizing r0 with
    | nil => intro _; rfl
    | cons st t ih =>
      intro hall
      simp only [List.foldl]
      rw [detectStep_eq_claimStep r0 st (hall st (List.mem_cons_self st t))]
      exact ih _ (fun s hs => hall s (List.mem_cons_of_mem st hs))


/-- Claim C9 witness: the conjuncts at concrete stores — an
underscore-named store, a two-record store, an erroring store, and a
store list with mutually exclusive sampled records. -/
theorem c9_witness :
    detSkipName (some ("_meta")) = true ∧
    detectStep DetectedStores.init ⟨some ("_meta"), .ok [.obj c9RecIssue]⟩
      = DetectedStores.init ∧
    detectStep DetectedStores.init
        ⟨some ("storeA"), .ok [.obj c9RecIssue, .obj c9RecBoth]⟩
      = detectStep DetectedStores.init ⟨some ("storeA"), .ok [.obj c9RecIssue]⟩ ∧
    detectStep DetectedStores.init ⟨some ("broken"), .error ()⟩
      = DetectedStores.init ∧
    detectStores [c9StoreA] = claimDetectStores [c9StoreA] := by
  refine ⟨by decide, ?_, ?_, ?_, ?_⟩
  · exact (c9_detect_stores.1 DetectedStores.init
      ⟨some ("_meta"), .ok [.obj c9RecIssue]⟩ (by decide)).1
  · exact c9_detect_stores.2.1 DetectedStores.init (some ("storeA"))
      [.obj c9RecIssue, .obj c9RecBoth]
  · exact c9_detect_stores.2.2.1 DetectedStores.init (some ("broken"))
  · refine c9_detect_stores.2.2.2 [c9StoreA] ?_
    intro st hst fs hfs
    have hst2 : st = c9StoreA := by simpa using hst
    subst hst2
    have h2 : sampledRecord c9StoreA = some c9RecIssue := rfl
    rw [h2] at hfs
    injection hfs with h3
    subst h3
    decide

/-- Claim C10: a cache access through `_ensure_cache` triggers a full
reload exactly when the force-refresh flag is set, or
`now - loaded_at > TTL`, or the snapshot has no teams; a snapshot with
zero teams reloads even inside the TTL without `mark_stale`;
`mark_stale` forces the next access to reload; and when none of the
three conditions hold the installed snapshot is returned unchanged. -/
theorem c10_ensure_cache_reload :
    ∀ (cfg : ReaderCfg) (codecs : TextCodecs)
      (openResult : Except String (List LoadDb)) (now : Rat)
      (s : ReaderState),
      ((ensureCache cfg codecs openResult now s).2.2 = true ↔
        (s.forceNextRefresh = true ∨ now - s.cache.loadedAt > CACHE_TTL_SECONDS
          ∨ s.cache.teams = [])) ∧
      ((ensureCache cfg codecs openResult now s).2.2 = false →
        ensureCache cfg codecs openResult now s = (s, s.cache, false)) ∧
      (s.forceNextRefresh = false → now - s.cache.loadedAt ≤ CACHE_TTL_SECONDS →
        s.cache.teams = [] →
        (ensureCache cfg codecs openResult now s).2.2 = true) ∧
      (∀ s2, (ensureCache cfg codecs openResult now (markStale s2)).2.2 = true) := by
  intro cfg codecs openResult now s
  have hcond : ensureCacheReloads now s = true ↔
      (s.forceNextRefresh = true ∨ now - s.cache.loadedAt > CACHE_TTL_SECONDS
        ∨ s.cache.teams = []) := by
    simp [ensureCacheReloads, CachedData.isExpired, List.isEmpty_iff, or_assoc]
  refine ⟨?_, ?_, ?_, ?_⟩
  · by_cases h : ensureCacheReloads now s = true
    · simp [ensureCache, h, hcond.mp h]
    · simp only [Bool.not_eq_true] at h
      have h2 := h
      simp [ensureCacheReloads, CachedData.isExpired, List.isEmpty_iff] at h2
      simp [ensureCache, h]
      exact ⟨h2.1.1, h2.1.2, h2.2⟩
  · intro h
    by_cases hr : ensureCacheReloads now s = true
    · simp [ensureCache, hr] at h
    · simp only [Bool.not_eq_true] at hr
      simp [ensureCache, hr]
  · intro h1 h2 h3
    have : ensureCacheReloads now s = true := hcond.mpr (Or.inr (Or.inr h3))
    simp [ensureCache, this]
  · intro s2
    have : ensureCacheReloads now (markStale s2) = true := by
      simp [ensureCacheReloads, markStale]
    simp [ensureCache, this]

/-- Claim C10 witness: the initial reader state has an empty teams map
and so always reloads, a freshly loaded non-empty snapshot does not, and
a `mark_stale` state reloads. -/
theorem c10_witness :
    (ensureCache c7Cfg c7Codecs (.error ("no db")) 1 ReaderState.init).2.2 = true ∧
    (ReaderState.init.forceNextRefresh = true ∨
      (1 : Rat) - ReaderState.init.cache.loadedAt > CACHE_TTL_SECONDS ∨
      ReaderState.init.cache.teams = []) ∧
    (ensureCache c7Cfg c7Codecs (.error ("no db")) 1 c10State).2.2 = false ∧
    ensureCache c7Cfg c7Codecs (.error ("no db")) 1 c10State
      = (c10State, c10State.cache, false) ∧
    (ensureCache c7Cfg c7Codecs (.error ("no db")) 1 (markStale c10State)).2.2
      = true := by
  rcases c10_ensure_cache_reload c7Cfg c7Codecs (.error ("no db")) 1 ReaderState.init
    with ⟨hiff, _, _, _⟩
  rcases c10_ensure_cache_reload c7Cfg c7Codecs (.error ("no db")) 1 c10State
    with ⟨_, hunch, _, hstale⟩
  have hfalse : (ensureCache c7Cfg c7Codecs (.error ("no db")) 1 c10State).2.2
      = false := by
    have hc : ensureCacheReloads 1 c10State = false := by
      simp [ensureCacheReloads, CachedData.isExpired, CACHE_TTL_SECONDS,
        CachedData.init, c10State]
    simp [ensureCache, hc]
  refine ⟨?_, Or.inr (Or.inr rfl), hfalse, hunch hfalse, hstale _⟩
  exact hiff.mpr (Or.inr (Or.inr rfl))

end LinearMcp
